import Mathlib

/-!
Verification of the real-time speech-to-speech translation broker
(`gcp-speech-to-speech-translation`), backend under `src/backend/`.

The Lean definitions below are shallow embeddings of the Python source:

* `Broker.Services` — `services.py` (`StreamingSTTService.create_stream.on_transcript`,
  the process-wide `_translation_cache` dictionary);
* `Broker.Speaker` — `main.py` (`websocket_speaker_endpoint` chunk handling) together
  with the `pybreaker` circuit breaker configured in `resilience.py` / `config.py`;
* `Broker.ConnMgr` — `connection_manager.py` (`ConnectionManager`: listener sets,
  keepalive sweep) and the listener endpoint of `main.py`;
* `Broker.SttAdapter` — `streaming_stt.py` (`StreamingSpeechToText` ingress queue);
* `Broker.SmartBuf` — `smart_buffer.py` (`SmartAudioBuffer.clear`);
* `Broker.Orch` — `fallback_orchestrator.py` (`FallbackOrchestrator`);
* `Broker.RestartAdapter` — the graceful-restart discipline of the streaming
  recognizer adapter, modelled from the specification (the implementing code is
  not part of `src/`; only its tests reference it).

Python `dict`s are embedded as insertion-ordered association lists, Python
`str.strip`/`str.lower` as explicit character-list operations, byte strings as
`List Nat`, wall-clock times as rationals, and every external RPC
(translate / synthesize / recognize) as an oracle argument returning `Option`.
-/

namespace Broker

/-! ## Python primitives: strings and dictionaries -/

/-- Python `str.strip()` on the underlying character list: drop whitespace from
both ends. -/
def pyStripList (cs : List Char) : List Char :=
  ((cs.dropWhile Char.isWhitespace).reverse.dropWhile Char.isWhitespace).reverse

/-- Python `str.strip()`. -/
def pyStrip (s : String) : String :=
  ⟨pyStripList s.data⟩

/-- Python `str.lower()` (per-character lowering). -/
def pyLower (s : String) : String :=
  ⟨s.data.map Char.toLower⟩

/-- Python `sub in s` substring test. -/
def pyContains (s sub : String) : Bool :=
  decide (sub.data <:+: s.data)

/-- Lookup in an insertion-ordered association list (Python `d[k]` / `k in d`). -/
def dictFind {κ β : Type} [DecidableEq κ] (k : κ) : List (κ × β) → Option β
  | [] => none
  | (k', v) :: rest => if k' = k then some v else dictFind k rest

/-- Python `k in d`. -/
def dictContains {κ β : Type} [DecidableEq κ] (k : κ) (d : List (κ × β)) : Bool :=
  (dictFind k d).isSome

/-- Python `d[k] = v`: updating an existing key keeps its position, a fresh key
is appended (insertion order). -/
def dictInsert {κ β : Type} [DecidableEq κ] (k : κ) (v : β) :
    List (κ × β) → List (κ × β)
  | [] => [(k, v)]
  | (k', v') :: rest =>
    if k' = k then (k, v) :: rest else (k', v') :: dictInsert k v rest

/-- Python `del d[k]` (no-op when the key is absent, matching the guarded
deletions in the source). -/
def dictErase {κ β : Type} [DecidableEq κ] (k : κ) (d : List (κ × β)) :
    List (κ × β) :=
  d.filter (fun p => p.1 ≠ k)

/-- `collections.deque(maxlen := cap)` append: keep the most recent `cap`
entries. -/
def dequeAppend {α : Type} (cap : Nat) (x : α) (l : List α) : List α :=
  let l' := l ++ [x]
  if cap < l'.length then l'.drop (l'.length - cap) else l'

/-! ## `services.py` — `StreamingSTTService` translate→synthesize pipeline

`StreamingSTTService.__init__` sets `self._translation_cache = {}` (a plain
Python dict, process-wide).  `create_stream` installs the `on_transcript`
callback, embedded below.  The two external RPCs `real_translation` and
`real_text_to_speech` are passed as oracles returning `Option`: `none` stands
for the call raising after its internal retries. -/

namespace Services

/-- Observable state of one `StreamingSTTService` together with the effects of
the callbacks it runs: the translation cache, the broadcasts issued through
`broadcast_callback`, and counters of external translate / synthesize calls. -/
structure PipelineState where
  translation_cache : List (String × String)
  broadcasts : List (String × List Nat)
  translate_calls : Nat
  tts_calls : Nat
  deriving Repr, DecidableEq

/-- The empty initial state (`_translation_cache = {}`, nothing broadcast). -/
def initState : PipelineState :=
  { translation_cache := [], broadcasts := [], translate_calls := 0, tts_calls := 0 }

/-- The cache key of `services.py:631`: `transcript.strip().lower()`. -/
def cacheKeyOf (transcript : String) : String :=
  pyLower (pyStrip transcript)

/-- `StreamingSTTService.create_stream.on_transcript` (`services.py:623-649`).

Control flow of the source: only `is_final and transcript.strip()` events are
processed; the cache is consulted at key `transcript.strip().lower()`; on a
miss, `real_translation(transcript)` is called and the result is written to the
cache *immediately* (line 638), before `real_text_to_speech` runs; the
synthesized audio is broadcast.  The whole body sits in a
`try/except Exception` whose handler only logs — a failing translate or
synthesize call therefore leaves the remaining steps undone and broadcasts
nothing. -/
def on_transcript (translateOracle : String → Option String)
    (ttsOracle : String → Option (List Nat)) (stream_id : String)
    (st : PipelineState) (transcript : String) (is_final : Bool) :
    PipelineState :=
  if is_final && (pyStrip transcript != "") then
    let cache_key := cacheKeyOf transcript
    match dictFind cache_key st.translation_cache with
    | some translated_text =>
      match ttsOracle translated_text with
      | some audio_content =>
        { st with tts_calls := st.tts_calls + 1,
                  broadcasts := st.broadcasts ++ [(stream_id, audio_content)] }
      | none => { st with tts_calls := st.tts_calls + 1 }
    | none =>
      match translateOracle transcript with
      | none => { st with translate_calls := st.translate_calls + 1 }
      | some translated_text =>
        let st1 := { st with translate_calls := st.translate_calls + 1,
                             translation_cache :=
                               dictInsert cache_key translated_text
                                 st.translation_cache }
        match ttsOracle translated_text with
        | some audio_content =>
          { st1 with tts_calls := st1.tts_calls + 1,
                     broadcasts := st1.broadcasts ++ [(stream_id, audio_content)] }
        | none => { st1 with tts_calls := st1.tts_calls + 1 }
  else st

/-- Run `on_transcript` over a sequence of finalized transcripts. -/
def runFinals (translateOracle : String → Option String)
    (ttsOracle : String → Option (List Nat)) (stream_id : String)
    (st : PipelineState) (transcripts : List String) : PipelineState :=
  transcripts.foldl
    (fun s t => on_transcript translateOracle ttsOracle stream_id s t true) st

/-- A family of pairwise distinct transcripts with no whitespace and no upper
case: `"a"`, `"aa"`, `"aaa"`, … (used to feed the cache arbitrarily many
distinct normalized keys). -/
def aKey (n : Nat) : String :=
  ⟨List.replicate (n + 1) 'a'⟩

end Services

/-! ## `main.py` — `websocket_speaker_endpoint` and the circuit breaker

`resilience.py` builds one process-wide `pybreaker.CircuitBreaker` with
`fail_max = settings.CIRCUIT_BREAKER_FAIL_MAX = 5`.  The speaker endpoint
(`main.py:506-565`) handles each binary frame: if `circuit_breaker.current_state
== "open"` it broadcasts `settings.FALLBACK_AUDIO` and `continue`s without
touching the pipeline; otherwise it runs `process_pipeline` under a timeout and
broadcasts either the produced audio, nothing (still buffering), or the
fallback payload, manually feeding failures to the breaker via
`circuit_breaker.call` on a throwing lambda. -/

namespace Speaker

/-- `pybreaker` breaker state.  `current_state` only changes inside `call`;
the speaker endpoint never calls through the breaker while it is open, so no
open→half-open probe is modelled on the read path, exactly as in the source. -/
inductive BreakerState where
  | closed (fail_counter : Nat)
  | opened
  | halfOpen
  deriving Repr, DecidableEq

/-- `settings.CIRCUIT_BREAKER_FAIL_MAX` (`config.py`). -/
def fail_max : Nat := 5

/-- `settings.FALLBACK_AUDIO = b'TEST_AUDIO_BEEP_MARKER:PIPELINE_ERROR_FALLBACK'`
(`config.py`). -/
def FALLBACK_AUDIO : List Nat :=
  "TEST_AUDIO_BEEP_MARKER:PIPELINE_ERROR_FALLBACK".data.map Char.toNat

/-- Effect of `circuit_breaker.call` on an always-failing callable (the
throwing lambdas of `main.py:542/551`): a failure is recorded in `closed`
(opening at `fail_max`), a half-open probe failure re-opens, and a call while
open raises `CircuitBreakerError` without recording. -/
def breakerRecordFailure : BreakerState → BreakerState
  | .closed n => if fail_max ≤ n + 1 then .opened else .closed (n + 1)
  | .opened => .opened
  | .halfOpen => .opened

/-- Outcome of one `process_pipeline(audio_chunk)` run under
`asyncio.timeout(settings.PIPELINE_TIMEOUT_S)`, as seen by the handler. -/
inductive PipelineResult where
  | buffering
  | output (audio : List Nat)
  | timeout
  | failure
  deriving Repr, DecidableEq

/-- One pipeline run as an oracle: its observable result plus the number of
external STT/translate/synthesize RPCs it would issue. -/
structure PipelineRun where
  result : PipelineResult
  ext_calls : Nat
  deriving Repr, DecidableEq

/-- Effects of handling one speaker audio chunk (`main.py:506-565`): new
breaker state, payloads broadcast to the stream, external RPCs issued. -/
structure ChunkEffects where
  breaker : BreakerState
  broadcasts : List (List Nat)
  ext_calls : Nat
  deriving Repr, DecidableEq

/-- The binary-frame branch of `websocket_speaker_endpoint` for one chunk.

`main.py:517-521`: when `circuit_breaker.current_state == "open"` the handler
broadcasts `FALLBACK_AUDIO` and `continue`s — `process_pipeline` is never
invoked, so no external call is issued.  Otherwise the pipeline runs: audio is
broadcast on success, nothing while still buffering, and on timeout or any
exception one failure is recorded on the breaker and `FALLBACK_AUDIO` is
broadcast. -/
def websocket_speaker_chunk (b : BreakerState) (run : PipelineRun) : ChunkEffects :=
  match b with
  | .opened => { breaker := .opened, broadcasts := [ FALLBACK_AUDIO], ext_calls := 0 }
  | _ =>
    match run.result with
    | .buffering => { breaker := b, broadcasts := [], ext_calls := run.ext_calls }
    | .output a => { breaker := b, broadcasts := [a], ext_calls := run.ext_calls }
    | .timeout =>
      { breaker := breakerRecordFailure b, broadcasts := [ FALLBACK_AUDIO],
        ext_calls := run.ext_calls }
    | .failure =>
      { breaker := breakerRecordFailure b, broadcasts := [ FALLBACK_AUDIO],
        ext_calls := run.ext_calls }

/-- Accumulate the effects of one more chunk. -/
def speakerStep (acc : ChunkEffects) (r : PipelineRun) : ChunkEffects :=
  let e := websocket_speaker_chunk acc.breaker r
  { breaker := e.breaker, broadcasts := acc.broadcasts ++ e.broadcasts,
    ext_calls := acc.ext_calls + e.ext_calls }

/-- Handle a sequence of speaker chunks, accumulating broadcasts and the
external-call count. -/
def runSpeakerChunks (b : BreakerState) (runs : List PipelineRun) : ChunkEffects :=
  runs.foldl speakerStep { breaker := b, broadcasts := [], ext_calls := 0 }

end Speaker

/-! ## `connection_manager.py` — `ConnectionManager`, and the listener endpoint

Listener sockets are identified by numbers.  Per-socket metadata mirrors the
`_connection_metadata` dict (`last_ping`, `last_pong`, `stream_id`,
`connected_at`); `PING_INTERVAL = 30`, `PONG_TIMEOUT = 10` seconds. -/

namespace ConnMgr

/-- One `_connection_metadata` entry. -/
structure ConnMeta where
  last_ping : ℤ
  last_pong : ℤ
  stream_id : String
  connected_at : ℤ
  deriving Repr, DecidableEq

/-- `ConnectionManager` state: `_streams` (stream → listener set, the set kept
as a duplicate-free list), `_connection_metadata`, and the keepalive-task flag. -/
structure CMState where
  streams : List (String × List Nat)
  connection_metadata : List (Nat × ConnMeta)
  keepalive_running : Bool
  deriving Repr, DecidableEq

def PING_INTERVAL : ℤ := 30

def PONG_TIMEOUT : ℤ := 10

/-- A fresh `ConnectionManager`. -/
def emptyCM : CMState :=
  { streams := [], connection_metadata := [], keepalive_running := false }

/-- `ConnectionManager.add_listener` (`connection_manager.py:33-60`): create the
stream's set if missing; if the socket is not yet in the set, add it,
initialize its metadata (`last_ping = 0`, `last_pong = now`,
`connected_at = now`) and start the keepalive task; otherwise only warn. -/
def add_listener (now : ℤ) (stream_id : String) (ws : Nat) (st : CMState) :
    CMState :=
  let streams0 :=
    if dictContains stream_id st.streams then st.streams
    else st.streams ++ [(stream_id, [])]
  let cur := (dictFind stream_id streams0).getD []
  if ws ∈ cur then { st with streams := streams0 }
  else
    { streams := dictInsert stream_id (cur ++ [ws]) streams0,
      connection_metadata :=
        dictInsert ws
          { last_ping := 0, last_pong := now, stream_id := stream_id,
            connected_at := now } st.connection_metadata,
      keepalive_running := true }

/-- `ConnectionManager.remove_listener` (`connection_manager.py:62-91`): remove
the socket from the stream's set and drop its metadata; delete the stream when
its set becomes empty; stop the keepalive flag when no connection remains. -/
def remove_listener (stream_id : String) (ws : Nat) (st : CMState) : CMState :=
  match dictFind stream_id st.streams with
  | none => st
  | some l =>
    if ws ∈ l then
      let l' := l.filter (fun w => w ≠ ws)
      let streams' :=
        if l' = [] then dictErase stream_id st.streams
        else dictInsert stream_id l' st.streams
      let md' := dictErase ws st.connection_metadata
      { streams := streams', connection_metadata := md',
        keepalive_running := if md' = [] then false else st.keepalive_running }
    else st

/-- `ConnectionManager.get_listeners` (`connection_manager.py:93-106`). -/
def get_listeners (stream_id : String) (st : CMState) : List Nat :=
  (dictFind stream_id st.streams).getD []

/-- `ConnectionManager.handle_pong` (`connection_manager.py:254-260`): update
`last_pong` when the socket is known. -/
def handle_pong (now : ℤ) (ws : Nat) (st : CMState) : CMState :=
  match dictFind ws st.connection_metadata with
  | none => st
  | some md =>
    { st with connection_metadata :=
        dictInsert ws { md with last_pong := now } st.connection_metadata }

/-- The dead-connection test of `_perform_keepalive_check`
(`connection_manager.py:215`): `last_ping > 0` and `now − last_pong >
PONG_TIMEOUT`. -/
def isDeadAt (now : ℤ) (md : ConnMeta) : Bool :=
  decide (0 < md.last_ping) && decide (PONG_TIMEOUT < now - md.last_pong)

/-- The ping branch of `_perform_keepalive_check` (`connection_manager.py:221`):
send a keepalive ping and set `last_ping = now` once `now - last_ping ≥
PING_INTERVAL` (sockets are live, so `_send_ping` succeeds). -/
def sweepPing (now : ℤ) (md : ConnMeta) : ConnMeta :=
  if PING_INTERVAL ≤ now - md.last_ping then { md with last_ping := now } else md

/-- `ConnectionManager._perform_keepalive_check` (`connection_manager.py:199-232`):
walk a snapshot of `_connection_metadata`; connections past the pong deadline
are collected as dead (and receive no ping); the others are pinged when due;
the dead ones are removed afterwards via `remove_listener`. -/
def perform_keepalive_check (now : ℤ) (st : CMState) : CMState :=
  let dead := st.connection_metadata.filter (fun p => isDeadAt now p.2)
  let md' := st.connection_metadata.map
    (fun p => if isDeadAt now p.2 then p else (p.1, sweepPing now p.2))
  let pinged := { st with connection_metadata := md' }
  dead.foldl (fun s p => remove_listener p.2.stream_id p.1 s) pinged

/-- The receive loop of `websocket_listener_endpoint` (`main.py:597-605`): every
non-disconnect frame — keepalive pong text frames included — is received and
discarded; `ConnectionManager.handle_pong` is never invoked. -/
def websocket_listener_on_text (st : CMState) (_text_frame : String) : CMState :=
  st

end ConnMgr

/-! ## `streaming_stt.py` — `StreamingSpeechToText` audio ingress -/

namespace SttAdapter

/-- Ingress state of `StreamingSpeechToText`: `__init__`
(`streaming_stt.py:30-41`) sets `is_streaming = False` and `_audio_queue =
queue.Queue()` — a queue constructed with **no** `maxsize`, hence unbounded. -/
structure SttState where
  is_streaming : Bool
  audio_queue : List (List Nat)
  deriving Repr, DecidableEq

/-- `StreamingSpeechToText.__init__` ingress fields. -/
def sttInit : SttState :=
  { is_streaming := false, audio_queue := [] }

/-- `StreamingSpeechToText.send_audio_chunk` (`streaming_stt.py:95-112`): warn
and return when not streaming; otherwise `put(chunk, block=False)`.  On an
unbounded `queue.Queue` the non-blocking put always succeeds, so the
`queue.Full` handler (which would merely log "dropping chunk") is unreachable;
there is no drop-oldest retry and no drop counter in the class. -/
def send_audio_chunk (st : SttState) (audio_chunk : List Nat) : SttState :=
  if st.is_streaming = false then st
  else { st with audio_queue := st.audio_queue ++ [audio_chunk] }

/-- Send a sequence of chunks. -/
def sendChunks (st : SttState) (chunks : List (List Nat)) : SttState :=
  chunks.foldl send_audio_chunk st

end SttAdapter

/-! ## `smart_buffer.py` — `SmartAudioBuffer.clear` -/

namespace SmartBuf

/-- `audio_processor.AudioFormat`. -/
inductive AudioFormat where
  | webm | wav | ogg | mp4 | unknown
  deriving Repr, DecidableEq

/-- `smart_buffer.BufferChunk` (data plus the `AudioAnalysis` fields the buffer
reads). -/
structure BufferChunk where
  data : List Nat
  quality_score : ℚ
  format_type : AudioFormat
  is_complete : Bool
  timestamp : ℚ
  sequence : Nat
  deriving Repr, DecidableEq

/-- The mutable buffer state of `SmartAudioBuffer` touched by `clear`. -/
structure SmartBufferState where
  chunks : List BufferChunk
  total_size : Nat
  first_chunk_time : Option ℚ
  sequence_counter : Nat
  quality_history : List ℚ
  format_counts : List (AudioFormat × Nat)
  deriving Repr, DecidableEq

/-- `SmartAudioBuffer.clear` (`smart_buffer.py:364-377`): empty the chunk list,
zero `total_size` and `sequence_counter`, clear `_quality_history` and
`_format_counts` — and deliberately leave `first_chunk_time` untouched
("DON'T reset first_chunk_time to preserve timing state"). -/
def clear (st : SmartBufferState) : SmartBufferState :=
  { st with chunks := [], total_size := 0, sequence_counter := 0,
            quality_history := [], format_counts := [] }

/-- `SmartAudioBuffer._get_buffer_duration` (`smart_buffer.py:386-390`). -/
def get_buffer_duration (now : ℚ) (st : SmartBufferState) : ℚ :=
  match st.first_chunk_time with
  | none => 0
  | some t => now - t

end SmartBuf

/-! ## `fallback_orchestrator.py` — `FallbackOrchestrator`

Configuration fixed at the constructor defaults wired from `config.py`:
`failure_threshold = 3`, `recovery_interval = 60 s`,
`max_recovery_attempts = 5`, `quality_threshold = 0.6`. -/

namespace Orch

/-- `fallback_orchestrator.ProcessingMode`. -/
inductive ProcessingMode where
  | streaming | buffered | hybrid
  deriving Repr, DecidableEq

/-- `fallback_orchestrator.FallbackReason`. -/
inductive FallbackReason where
  | streaming_error | connection_quality | api_quota | timeout | resource_limit
  | user_preference
  deriving Repr, DecidableEq

/-- `reason.value` (the defaultdict key used by `failure_counters`). -/
def reasonValue : FallbackReason → String
  | .streaming_error => "streaming_error"
  | .connection_quality => "connection_quality"
  | .api_quota => "api_quota"
  | .timeout => "timeout"
  | .resource_limit => "resource_limit"
  | .user_preference => "user_preference"

/-- `fallback_orchestrator.StreamStatus`. -/
structure StreamStatus where
  stream_id : String
  current_mode : ProcessingMode
  failure_count : Nat
  last_failure_time : Option ℚ
  last_success_time : Option ℚ
  consecutive_failures : Nat
  total_processing_time : ℚ
  recovery_attempts : Nat
  deriving Repr, DecidableEq

/-- `fallback_orchestrator.FallbackEvent` (without the unused
`error_message`/`metrics_snapshot` payload). -/
structure FallbackEvent where
  stream_id : String
  timestamp : ℚ
  from_mode : ProcessingMode
  to_mode : ProcessingMode
  reason : FallbackReason
  deriving Repr, DecidableEq

/-- The orchestrator's `stats` counters touched by the embedded operations. -/
structure OrchStats where
  total_fallbacks : Nat
  total_recoveries : Nat
  mode_switches : Nat
  forced_fallbacks : Nat
  deriving Repr, DecidableEq

/-- `FallbackOrchestrator` state. -/
structure OrchState where
  stream_status : List (String × StreamStatus)
  fallback_history : List FallbackEvent
  global_mode : ProcessingMode
  failure_counters : List (String × Nat)
  last_failure_time : List (String × ℚ)
  stats : OrchStats
  deriving Repr, DecidableEq

def failure_threshold : Nat := 3

def recovery_interval : ℚ := 60

def max_recovery_attempts : Nat := 5

def quality_threshold : ℚ := 3 / 5

/-- A fresh orchestrator (`global_mode = STREAMING`). -/
def orchInit : OrchState :=
  { stream_status := [], fallback_history := [], global_mode := .streaming,
    failure_counters := [], last_failure_time := [],
    stats := ⟨0, 0, 0, 0⟩ }

/-- `FallbackOrchestrator._get_stream_status` (`fallback_orchestrator.py:343-350`):
look up the stream's status, creating a default entry
(`current_mode = global_mode`, all counters zero) on first use. -/
def get_stream_status (stream_id : String) (st : OrchState) :
    StreamStatus × OrchState :=
  match dictFind stream_id st.stream_status with
  | some s => (s, st)
  | none =>
    let s : StreamStatus :=
      { stream_id := stream_id, current_mode := st.global_mode,
        failure_count := 0, last_failure_time := none,
        last_success_time := none, consecutive_failures := 0,
        total_processing_time := 0, recovery_attempts := 0 }
    (s, { st with stream_status := dictInsert stream_id s st.stream_status })

/-- `FallbackOrchestrator._classify_error` (`fallback_orchestrator.py:392-405`)
on the error's message. -/
def classify_error (error_message : String) : FallbackReason :=
  let m := pyLower error_message
  if pyContains m "quota" || pyContains m "rate limit" then .api_quota
  else if pyContains m "timeout" then .timeout
  else if pyContains m "connection" || pyContains m "network" then
    .connection_quality
  else if pyContains m "resource" || pyContains m "memory" then .resource_limit
  else .streaming_error

/-- Increment a `defaultdict(int)` counter. -/
def counterInc (k : String) (d : List (String × Nat)) : List (String × Nat) :=
  dictInsert k ((dictFind k d).getD 0 + 1) d

/-- `FallbackOrchestrator._execute_fallback` (`fallback_orchestrator.py:407-439`):
set the stream's mode, append a `FallbackEvent` to the bounded history
(`deque(maxlen=1000)`), and bump the statistics. -/
def execute_fallback (now : ℚ) (stream_id : String) (from_mode to_mode :
    ProcessingMode) (reason : FallbackReason) (st : OrchState) : OrchState :=
  let (status, st1) := get_stream_status stream_id st
  let status' := { status with current_mode := to_mode }
  let st2 := { st1 with
    stream_status := dictInsert stream_id status' st1.stream_status,
    fallback_history :=
      dequeAppend 1000 ⟨stream_id, now, from_mode, to_mode, reason⟩
        st1.fallback_history }
  let s0 := st2.stats
  let s1 := { s0 with total_fallbacks := s0.total_fallbacks + 1,
                      mode_switches := s0.mode_switches + 1 }
  let s2 :=
    if reason ≠ .user_preference then
      { s1 with forced_fallbacks := s1.forced_fallbacks + 1 }
    else s1
  { st2 with stats := s2 }

/-- `FallbackOrchestrator.handle_processing_error`
(`fallback_orchestrator.py:147-187`): bump the failure counters, classify the
error, and fall back to buffered mode when the consecutive-failure threshold is
reached, the reason is quota/resource, or the current mode is streaming.
Returns whether a fallback was triggered. -/
def handle_processing_error (now : ℚ) (stream_id : String)
    (error_message : String) (current_mode : ProcessingMode) (st : OrchState) :
    Bool × OrchState :=
  let (status, st1) := get_stream_status stream_id st
  let reason := classify_error error_message
  let status' := { status with
    failure_count := status.failure_count + 1,
    consecutive_failures := status.consecutive_failures + 1,
    last_failure_time := some now }
  let st2 := { st1 with
    stream_status := dictInsert stream_id status' st1.stream_status,
    failure_counters := counterInc (reasonValue reason) st1.failure_counters,
    last_failure_time := dictInsert stream_id now st1.last_failure_time }
  let should_fallback :=
    decide (failure_threshold ≤ status'.consecutive_failures) ||
    decide (reason = .api_quota) || decide (reason = .resource_limit) ||
    decide (current_mode = .streaming)
  if should_fallback then
    (true, execute_fallback now stream_id current_mode .buffered reason st2)
  else
    (false, st2)

/-- `FallbackOrchestrator.record_success` (`fallback_orchestrator.py:189-197`):
set `last_success_time`, reset `consecutive_failures` to 0 and accumulate
processing time — nothing else. -/
def record_success (now : ℚ) (stream_id : String) (processing_time_ms : ℚ)
    (st : OrchState) : OrchState :=
  let (status, st1) := get_stream_status stream_id st
  let status' := { status with
    last_success_time := some now,
    consecutive_failures := 0,
    total_processing_time := status.total_processing_time + processing_time_ms }
  { st1 with stream_status := dictInsert stream_id status' st1.stream_status }

/-- `FallbackOrchestrator._global_conditions_favor_recovery`
(`fallback_orchestrator.py:441-459`). -/
def global_conditions_favor_recovery (now : ℚ) (st : OrchState) : Bool :=
  let recent_failures :=
    (st.last_failure_time.filter (fun p => decide (now - p.2 < 180))).length
  if 5 < recent_failures then false
  else
    let active_recoveries :=
      (st.stream_status.filter (fun p =>
        decide (p.2.current_mode = .streaming) &&
        decide (0 < p.2.recovery_attempts))).length
    if 3 < active_recoveries then false else true

/-- `FallbackOrchestrator.should_attempt_recovery`
(`fallback_orchestrator.py:220-249`): recovery is gated on currently-buffered
mode, the `max_recovery_attempts` cap, the recovery interval since the last
failure (stream-local and global trackers), and the global conditions. -/
def should_attempt_recovery (now : ℚ) (stream_id : String) (st : OrchState) :
    Bool × OrchState :=
  let (status, st1) := get_stream_status stream_id st
  if status.current_mode ≠ .buffered then (false, st1)
  else if max_recovery_attempts ≤ status.recovery_attempts then (false, st1)
  else
    let last_failure :=
      max (status.last_failure_time.getD 0)
        ((dictFind stream_id st1.last_failure_time).getD 0)
    if 0 < last_failure ∧ now - last_failure < recovery_interval then
      (false, st1)
    else if global_conditions_favor_recovery now st1 = false then (false, st1)
    else (true, st1)

/-- The recovery body of `FallbackOrchestrator.attempt_recovery`
(`fallback_orchestrator.py:261-273`): bump `recovery_attempts` and execute a
buffered→streaming fallback event, counting the recovery. -/
def do_recover (now : ℚ) (stream_id : String) (st1 : OrchState) : OrchState :=
  let (status, st2) := get_stream_status stream_id st1
  let status' :=
    { status with recovery_attempts := status.recovery_attempts + 1 }
  let st3 :=
    { st2 with stream_status := dictInsert stream_id status' st2.stream_status }
  let st4 := execute_fallback now stream_id .buffered .streaming
    .user_preference st3
  { st4 with stats :=
    { st4.stats with total_recoveries := st4.stats.total_recoveries + 1 } }

/-- `FallbackOrchestrator.attempt_recovery` (`fallback_orchestrator.py:251-275`):
when `should_attempt_recovery` allows it, run the recovery body. -/
def attempt_recovery (now : ℚ) (stream_id : String) (st : OrchState) :
    Bool × OrchState :=
  let (ok, st1) := should_attempt_recovery now stream_id st
  if ok = false then (false, st1)
  else (true, do_recover now stream_id st1)

/-- `connection_quality_monitor.ConnectionMetrics` (the two fields read by
`decide_processing_mode`). -/
structure CMetrics where
  average_latency_ms : ℚ
  success_rate : ℚ
  deriving Repr, DecidableEq

/-- The `audio_characteristics` dict (`frequency`, `size`; absent keys default
to 0 in the source). -/
structure AudioChars where
  frequency : ℚ
  size : ℚ
  deriving Repr, DecidableEq

/-- `FallbackOrchestrator._should_force_fallback`
(`fallback_orchestrator.py:352-365`). -/
def should_force_fallback (now : ℚ) (status : StreamStatus) (st : OrchState) :
    Bool :=
  if failure_threshold ≤ status.consecutive_failures then true
  else
    let recent :=
      (st.last_failure_time.filter (fun p => decide (now - p.2 < 300))).length
    decide (10 < recent)

/-- `FallbackOrchestrator._calculate_connection_quality_score`
(`fallback_orchestrator.py:367-374`): `0.4 · max(0, 1 − latency/1000) + 0.6 ·
success_rate`. -/
def calc_connection_quality_score (m : CMetrics) : ℚ :=
  max 0 (1 - m.average_latency_ms / 1000) * (2 / 5) + m.success_rate * (3 / 5)

/-- `FallbackOrchestrator._audio_favors_streaming`
(`fallback_orchestrator.py:376-382`). -/
def audio_favors_streaming (ac : AudioChars) : Bool :=
  decide (8 < ac.frequency) || decide (5000 < ac.size)

/-- `FallbackOrchestrator._audio_favors_buffering`
(`fallback_orchestrator.py:384-390`). -/
def audio_favors_buffering (ac : AudioChars) : Bool :=
  decide (ac.frequency < 3) && decide (ac.size < 2000)

/-- `FallbackOrchestrator.decide_processing_mode`
(`fallback_orchestrator.py:103-145`): forced fallback, then
connection-quality, then audio characteristics, then the stream's current
mode (or the global preference when hybrid).  Its only state effect is the
lazy creation inside `_get_stream_status`. -/
def decide_processing_mode (now : ℚ) (stream_id : String)
    (metrics : Option CMetrics) (audio : Option AudioChars) (st : OrchState) :
    ProcessingMode × OrchState :=
  let (status, st1) := get_stream_status stream_id st
  if should_force_fallback now status st1 then (.buffered, st1)
  else
    let defaultMode :=
      if status.current_mode ≠ .hybrid then status.current_mode
      else st1.global_mode
    let byAudio :=
      match audio with
      | some ac =>
        if audio_favors_streaming ac then ProcessingMode.streaming
        else if audio_favors_buffering ac then ProcessingMode.buffered
        else defaultMode
      | none => defaultMode
    match metrics with
    | some m =>
      if calc_connection_quality_score m < quality_threshold then
        (.buffered, st1)
      else (byAudio, st1)
    | none => (byAudio, st1)

/-- The operations of the claim: mode decision, error handling, success
recording and recovery attempts, each stamped with the wall-clock time the
source would read from `time.time()`. -/
inductive OrchOp where
  | decideMode (now : ℚ) (stream_id : String) (metrics : Option CMetrics)
      (audio : Option AudioChars)
  | handleError (now : ℚ) (stream_id : String) (error_message : String)
      (current_mode : ProcessingMode)
  | recordSuccess (now : ℚ) (stream_id : String) (processing_time_ms : ℚ)
  | attemptRecovery (now : ℚ) (stream_id : String)

/-- State effect of one orchestrator operation. -/
def applyOp (st : OrchState) : OrchOp → OrchState
  | .decideMode now sid metrics audio =>
    (decide_processing_mode now sid metrics audio st).2
  | .handleError now sid msg mode => (handle_processing_error now sid msg mode st).2
  | .recordSuccess now sid ms => record_success now sid ms st
  | .attemptRecovery now sid => (attempt_recovery now sid st).2

/-- Apply a sequence of orchestrator operations. -/
def applyOps (st : OrchState) (ops : List OrchOp) : OrchState :=
  ops.foldl applyOp st

/-- The `recovery_attempts` counter of a stream (0 before the status exists). -/
def recoveryAttemptsOf (stream_id : String) (st : OrchState) : Nat :=
  ((dictFind stream_id st.stream_status).map
    (fun s => s.recovery_attempts)).getD 0

/-- The `consecutive_failures` counter of a stream (0 before the status
exists). -/
def consecutiveFailuresOf (stream_id : String) (st : OrchState) : Nat :=
  ((dictFind stream_id st.stream_status).map
    (fun s => s.consecutive_failures)).getD 0

/-- The current mode of a stream as `get_mode_for_stream` reports it
(`fallback_orchestrator.py:277-282`). -/
def get_mode_for_stream (stream_id : String) (st : OrchState) : ProcessingMode :=
  match dictFind stream_id st.stream_status with
  | none => st.global_mode
  | some s => s.current_mode

end Orch

/-! ## The streaming recognizer adapter's graceful restart

Modelled from the spec: the 4:40 graceful-restart discipline of the Streaming
Recognizer Adapter (spec §4.6) is exercised by the repository's tests
(`test_quick_restart.py`, `test_restart_validation.py` expect a restart at the
280 s mark on the `/ws/stream/…` endpoint), but the implementing module is not
among the provided backend sources — `streaming_stt.py` contains no session
timer.  Time is discretized in 1 s ticks under continuous audio (one chunk per
tick): `restartDeadline = 280 s = 280` ticks, the restart drain deadline of
100 ms is rounded up to `1` tick.  Each tick enqueues the arriving chunk, then
the adapter either completes an in-flight drain (starting the replacement
session), schedules a restart once the session age reaches the deadline
(recording the finished session), or lets the request generator forward one
queued chunk to the engine.  The queue survives the swap untouched. -/

namespace RestartAdapter

/-- 280 s in 1 s ticks (5 min minus a 20 s safety margin). -/
def restartDeadlineTicks : Nat := 280

/-- The 100 ms drain wait, rounded up to one 1 s tick. -/
def drainDeadlineTicks : Nat := 1

/-- Adapter state: current session start tick, restart-in-flight flag, the
ingress queue, the chunks already forwarded to the engine (newest first), and
the log of completed sessions as (start, stop) tick pairs. -/
structure AdapterState where
  session_start : Nat
  draining : Bool
  queue : List Nat
  sent : List Nat
  completed : List (Nat × Nat)
  deriving Repr, DecidableEq

/-- Adapter at the moment the first session starts (tick 0). -/
def adapterInit : AdapterState :=
  { session_start := 0, draining := false, queue := [], sent := [],
    completed := [] }

/-- One 100 ms tick at time `t` with arriving chunk `chunk`. -/
def tick (t : Nat) (chunk : Nat) (a : AdapterState) : AdapterState :=
  let a1 := { a with queue := a.queue ++ [chunk] }
  if a1.draining then
    { a1 with draining := false, session_start := t }
  else if restartDeadlineTicks ≤ t - a1.session_start then
    { a1 with draining := true,
              completed := a1.completed ++ [(a1.session_start, t)] }
  else
    match a1.queue with
    | [] => a1
    | c :: rest => { a1 with queue := rest, sent := c :: a1.sent }

/-- Run the adapter for `n` ticks of continuous audio (chunk `t` arrives at
tick `t`). -/
def run (n : Nat) : AdapterState :=
  (List.range' 1 n).foldl (fun a t => tick t t a) adapterInit

end RestartAdapter

/-! ## Association-list (Python dict) lemmas -/

theorem dictFind_append_right {κ β : Type} [DecidableEq κ] (k : κ)
    (d : List (κ × β)) (v : β) (h : dictFind k d = none) :
    dictFind k (d ++ [(k, v)]) = some v := by
  induction d with
  | nil => simp [dictFind]
  | cons p rest ih =>
      obtain ⟨pk, pv⟩ := p
      simp only [dictFind, List.cons_append] at h ⊢
      by_cases hk : pk = k
      · simp [hk] at h
      · simp only [hk, if_false] at h ⊢
        exact ih h

theorem dictFind_append_single_ne {κ β : Type} [DecidableEq κ] (k k' : κ)
    (d : List (κ × β)) (v : β) (h : dictFind k d = none) (hne : k' ≠ k) :
    dictFind k (d ++ [(k', v)]) = none := by
  induction d with
  | nil => simp [dictFind, hne]
  | cons p rest ih =>
      obtain ⟨pk, pv⟩ := p
      simp only [dictFind, List.cons_append] at h ⊢
      by_cases hk : pk = k
      · simp [hk] at h
      · simp only [hk, if_false] at h ⊢
        exact ih h

theorem dictContains_eq_false_iff {κ β : Type} [DecidableEq κ] (k : κ)
    (d : List (κ × β)) : dictContains k d = false ↔ dictFind k d = none := by
  cases h : dictFind k d <;> simp [dictContains, h]

theorem dictInsert_of_not_contains {κ β : Type} [DecidableEq κ] (k : κ) (v : β)
    (d : List (κ × β)) (h : dictContains k d = false) :
    dictInsert k v d = d ++ [(k, v)] := by
  induction d with
  | nil => rfl
  | cons p rest ih =>
      obtain ⟨pk, pv⟩ := p
      simp only [dictContains, dictFind] at h
      by_cases hk : pk = k
      · simp [hk] at h
      · simp only [hk, if_false] at h
        simp only [dictInsert, hk, if_false, List.cons_append, List.cons.injEq,
          true_and]
        exact ih (by simpa [dictContains] using h)

theorem length_dictInsert {κ β : Type} [DecidableEq κ] (k : κ) (v : β)
    (d : List (κ × β)) :
    (dictInsert k v d).length =
      if dictContains k d then d.length else d.length + 1 := by
  induction d with
  | nil => simp [dictInsert, dictContains, dictFind]
  | cons p rest ih =>
      obtain ⟨pk, pv⟩ := p
      by_cases hk : pk = k
      · simp [dictInsert, dictContains, dictFind, hk]
      · simp only [dictInsert, hk, if_false, List.length_cons, ih,
          dictContains, dictFind]
        by_cases hc : (dictFind k rest).isSome <;> simp [hc]

theorem length_dictInsert_of_not_contains {κ β : Type} [DecidableEq κ] (k : κ)
    (v : β) (d : List (κ × β)) (h : dictContains k d = false) :
    (dictInsert k v d).length = d.length + 1 := by
  rw [length_dictInsert, h]
  rfl

theorem length_dictInsert_of_contains {κ β : Type} [DecidableEq κ] (k : κ)
    (v : β) (d : List (κ × β)) (h : dictContains k d = true) :
    (dictInsert k v d).length = d.length := by
  rw [length_dictInsert, h]
  rfl

theorem length_le_length_dictInsert {κ β : Type} [DecidableEq κ] (k : κ)
    (v : β) (d : List (κ × β)) : d.length ≤ (dictInsert k v d).length := by
  rw [length_dictInsert]
  by_cases h : dictContains k d <;> simp [h]

theorem dictFind_append {κ β : Type} [DecidableEq κ] (k : κ)
    (d₁ d₂ : List (κ × β)) :
    dictFind k (d₁ ++ d₂) =
      match dictFind k d₁ with
      | some v => some v
      | none => dictFind k d₂ := by
  induction d₁ with
  | nil => simp [dictFind]
  | cons p rest ih =>
      obtain ⟨pk, pv⟩ := p
      by_cases h : pk = k <;> simp [dictFind, h, ih]

theorem dictFind_dictInsert_self {κ β : Type} [DecidableEq κ] (k : κ) (v : β)
    (d : List (κ × β)) : dictFind k (dictInsert k v d) = some v := by
  induction d with
  | nil => simp [dictInsert, dictFind]
  | cons p rest ih =>
      obtain ⟨pk, pv⟩ := p
      by_cases hk : pk = k <;> simp [dictInsert, dictFind, hk, ih]

theorem dictFind_dictInsert_ne {κ β : Type} [DecidableEq κ] {k k' : κ} (v : β)
    (d : List (κ × β)) (h : k ≠ k') :
    dictFind k (dictInsert k' v d) = dictFind k d := by
  induction d with
  | nil => simp [dictInsert, dictFind, Ne.symm h]
  | cons p rest ih =>
      obtain ⟨pk, pv⟩ := p
      by_cases hk : pk = k'
      · subst hk
        simp [dictInsert, dictFind, Ne.symm h]
      · by_cases hpk : pk = k <;>
          simp [dictInsert, dictFind, hk, hpk, h, ih]

theorem dictFind_dictErase_self {κ β : Type} [DecidableEq κ] (k : κ)
    (d : List (κ × β)) : dictFind k (dictErase k d) = none := by
  induction d with
  | nil => rfl
  | cons p rest ih =>
      obtain ⟨pk, pv⟩ := p
      by_cases h : pk = k
      · simpa [dictErase, h] using ih
      · simpa [dictErase, dictFind, h] using ih

theorem dictFind_dictErase_ne {κ β : Type} [DecidableEq κ] {k k' : κ}
    (d : List (κ × β)) (h : k ≠ k') :
    dictFind k (dictErase k' d) = dictFind k d := by
  induction d with
  | nil => rfl
  | cons p rest ih =>
      obtain ⟨pk, pv⟩ := p
      by_cases hp : pk = k'
      · subst hp
        simpa [dictErase, dictFind, Ne.symm h] using ih
      · by_cases hk : pk = k
        · simp [dictErase, dictFind, hp, hk, h]
        · simpa [dictErase, dictFind, hp, hk, h] using ih

theorem filter_ne_of_not_mem {l : List Nat} {ws : Nat} (h : ws ∉ l) :
    l.filter (fun w => w ≠ ws) = l := by
  apply List.filter_eq_self.mpr
  intro a ha
  simp only [ne_eq, decide_eq_true_eq]
  exact fun hcontra => h (hcontra ▸ ha)

/-! ## `services.py` branch lemmas -/

namespace Services

theorem on_transcript_hit {tr : String → Option String}
    {tts : String → Option (List Nat)} {sid : String} {st : PipelineState}
    {t e : String} {a : List Nat} (h1 : pyStrip t ≠ "")
    (hhit : dictFind (cacheKeyOf t) st.translation_cache = some e)
    (h3 : tts e = some a) :
    on_transcript tr tts sid st t true =
      { st with tts_calls := st.tts_calls + 1,
                broadcasts := st.broadcasts ++ [(sid, a)] } := by
  simp [on_transcript, bne_iff_ne, h1, hhit, h3]

theorem on_transcript_hit_tts_fail {tr : String → Option String}
    {tts : String → Option (List Nat)} {sid : String} {st : PipelineState}
    {t e : String} (h1 : pyStrip t ≠ "")
    (hhit : dictFind (cacheKeyOf t) st.translation_cache = some e)
    (h3 : tts e = none) :
    on_transcript tr tts sid st t true =
      { st with tts_calls := st.tts_calls + 1 } := by
  simp [on_transcript, bne_iff_ne, h1, hhit, h3]

theorem on_transcript_miss_tr_fail {tr : String → Option String}
    {tts : String → Option (List Nat)} {sid : String} {st : PipelineState}
    {t : String} (h1 : pyStrip t ≠ "")
    (hmiss : dictFind (cacheKeyOf t) st.translation_cache = none)
    (h2 : tr t = none) :
    on_transcript tr tts sid st t true =
      { st with translate_calls := st.translate_calls + 1 } := by
  simp [on_transcript, bne_iff_ne, h1, hmiss, h2]

theorem on_transcript_miss_success {tr : String → Option String}
    {tts : String → Option (List Nat)} {sid : String} {st : PipelineState}
    {t e : String} {a : List Nat} (h1 : pyStrip t ≠ "")
    (hmiss : dictFind (cacheKeyOf t) st.translation_cache = none)
    (h2 : tr t = some e) (h3 : tts e = some a) :
    on_transcript tr tts sid st t true =
      { st with translate_calls := st.translate_calls + 1,
                tts_calls := st.tts_calls + 1,
                translation_cache :=
                  dictInsert (cacheKeyOf t) e st.translation_cache,
                broadcasts := st.broadcasts ++ [(sid, a)] } := by
  simp [on_transcript, bne_iff_ne, h1, hmiss, h2, h3]

theorem on_transcript_miss_tts_fail {tr : String → Option String}
    {tts : String → Option (List Nat)} {sid : String} {st : PipelineState}
    {t e : String} (h1 : pyStrip t ≠ "")
    (hmiss : dictFind (cacheKeyOf t) st.translation_cache = none)
    (h2 : tr t = some e) (h3 : tts e = none) :
    on_transcript tr tts sid st t true =
      { st with translate_calls := st.translate_calls + 1,
                tts_calls := st.tts_calls + 1,
                translation_cache :=
                  dictInsert (cacheKeyOf t) e st.translation_cache } := by
  simp [on_transcript, bne_iff_ne, h1, hmiss, h2, h3]

theorem on_transcript_skip {tr : String → Option String}
    {tts : String → Option (List Nat)} {sid : String} {st : PipelineState}
    {t : String} {fin : Bool} (h : (fin && (pyStrip t != "")) = false) :
    on_transcript tr tts sid st t fin = st := by
  simp [on_transcript, h]

example :
    (on_transcript (fun _ => some "hello world") (fun _ => some [7, 8])
      "demo" initState " Hallo Wereld " true).translation_cache =
      [("hallo wereld", "hello world")] := by decide

example :
    (on_transcript (fun _ => some "hello world") (fun _ => some [7, 8])
      "demo" initState "Hallo" true).broadcasts = [("demo", [7, 8])] := by decide

example :
    (on_transcript (fun _ => some "x") (fun _ => some [1])
      "demo" initState "   " true) = initState := by decide

end Services

/-! ## Claim C9 — `SmartAudioBuffer.clear` frame effect -/

/-- C9: for every Smart Audio Buffer state holding at least one chunk,
`clear()` empties the chunk list, zeroes the byte total, clears the quality
history and format counts, and leaves `first_chunk_time` unchanged, so the
buffer-duration (adaptive-timeout input) computed at any later instant is the
same as before the clear. -/
theorem C9_clear_frame_effect (st : SmartBuf.SmartBufferState)
    (_h : st.chunks ≠ []) :
    (SmartBuf.clear st).chunks = [] ∧
    (SmartBuf.clear st).total_size = 0 ∧
    (SmartBuf.clear st).quality_history = [] ∧
    (SmartBuf.clear st).format_counts = [] ∧
    (SmartBuf.clear st).first_chunk_time = st.first_chunk_time ∧
    ∀ now : ℚ, SmartBuf.get_buffer_duration now (SmartBuf.clear st) =
      SmartBuf.get_buffer_duration now st :=
  ⟨rfl, rfl, rfl, rfl, rfl, fun _ => rfl⟩

/-- Witness for C9 at a concrete one-chunk buffer whose first chunk arrived at
time 5. -/
theorem C9_witness :
    (SmartBuf.clear
      { chunks := [⟨[1, 2], 1 / 2, SmartBuf.AudioFormat.wav, true, 5, 0⟩],
        total_size := 2, first_chunk_time := some 5, sequence_counter := 1,
        quality_history := [1 / 2],
        format_counts := [(SmartBuf.AudioFormat.wav, 1)] }).first_chunk_time =
      some 5 :=
  (C9_clear_frame_effect
    { chunks := [⟨[1, 2], 1 / 2, SmartBuf.AudioFormat.wav, true, 5, 0⟩],
      total_size := 2, first_chunk_time := some 5, sequence_counter := 1,
      quality_history := [1 / 2],
      format_counts := [(SmartBuf.AudioFormat.wav, 1)] }
    (by decide)).2.2.2.2.1

/-! ## Claim C2 — open breaker short-circuits the speaker pipeline -/

theorem speaker_foldl_open (runs : List Speaker.PipelineRun)
    (acc : Speaker.ChunkEffects) (h : acc.breaker = .opened) :
    runs.foldl Speaker.speakerStep acc =
      { breaker := .opened,
        broadcasts :=
          acc.broadcasts ++ List.replicate runs.length Speaker.FALLBACK_AUDIO,
        ext_calls := acc.ext_calls } := by
  induction runs generalizing acc with
  | nil =>
      cases acc
      simp_all
  | cons r rest ih =>
      have hstep : Speaker.speakerStep acc r =
          { breaker := .opened,
            broadcasts := acc.broadcasts ++ [ Speaker.FALLBACK_AUDIO],
            ext_calls := acc.ext_calls } := by
        simp [Speaker.speakerStep, Speaker.websocket_speaker_chunk, h]
      rw [List.foldl_cons, hstep, ih _ rfl]
      simp [List.replicate_succ]

/-- C2: while the process-wide circuit breaker reads `open`, the speaker-chunk
handler issues no external STT/translate/synthesize call and broadcasts the
configured `FALLBACK_AUDIO` payload, once per chunk, with the breaker left
open — for a single chunk and for every sequence of chunks processed while the
breaker remains open, regardless of what the pipeline oracle would have
returned. -/
theorem C2_breaker_open_short_circuits (runs : List Speaker.PipelineRun) :
    (∀ r : Speaker.PipelineRun,
      Speaker.websocket_speaker_chunk .opened r =
        { breaker := .opened, broadcasts := [ Speaker.FALLBACK_AUDIO],
          ext_calls := 0 }) ∧
    Speaker.runSpeakerChunks .opened runs =
      { breaker := .opened,
        broadcasts := List.replicate runs.length Speaker.FALLBACK_AUDIO,
        ext_calls := 0 } := by
  refine ⟨fun r => rfl, ?_⟩
  unfold Speaker.runSpeakerChunks
  rw [speaker_foldl_open runs _ rfl]
  simp

/-! ## Claim C7 — the streaming adapter's ingress queue -/

set_option maxRecDepth 4000 in
/-- C7 counterexample: the source's ingress queue is `queue.Queue()` with no
`maxsize`; 51 chunks sent while streaming are all enqueued — the queue holds
51 > 50 entries and nothing is dropped, so it is not a bounded queue of
capacity 50 with a drop-oldest overflow policy. -/
theorem C7_counterexample :
    (SttAdapter.sendChunks { is_streaming := true, audio_queue := [] }
        (List.replicate 51 [0])).audio_queue = List.replicate 51 [0] ∧
    50 < (SttAdapter.sendChunks { is_streaming := true, audio_queue := [] }
        (List.replicate 51 [0])).audio_queue.length := by
  constructor
  · decide
  · decide

theorem send_audio_chunk_is_streaming (st : SttAdapter.SttState)
    (c : List Nat) :
    (SttAdapter.send_audio_chunk st c).is_streaming = st.is_streaming := by
  by_cases h : st.is_streaming = false <;> simp [SttAdapter.send_audio_chunk, h]

theorem sendChunks_is_streaming (chunks : List (List Nat))
    (st : SttAdapter.SttState) :
    (SttAdapter.sendChunks st chunks).is_streaming = st.is_streaming := by
  induction chunks generalizing st with
  | nil => rfl
  | cons c rest ih =>
      simp only [SttAdapter.sendChunks, List.foldl_cons] at *
      rw [ih, send_audio_chunk_is_streaming]

theorem sendChunks_queue_of_streaming (chunks : List (List Nat))
    (st : SttAdapter.SttState) (h : st.is_streaming = true) :
    (SttAdapter.sendChunks st chunks).audio_queue = st.audio_queue ++ chunks := by
  induction chunks generalizing st with
  | nil => simp [SttAdapter.sendChunks]
  | cons c rest ih =>
      have hstep : SttAdapter.send_audio_chunk st c =
          { is_streaming := st.is_streaming,
            audio_queue := st.audio_queue ++ [c] } := by
        simp [SttAdapter.send_audio_chunk, h]
      have hrec := ih
        { is_streaming := st.is_streaming, audio_queue := st.audio_queue ++ [c] }
        h
      simp only [SttAdapter.sendChunks, List.foldl_cons] at *
      rw [hstep, hrec]
      simp

/-- C7 as amended: `StreamingSpeechToText`'s audio ingress queue is unbounded;
while `is_streaming` every `send_audio_chunk` appends the chunk (no chunk is
ever dropped, there is no drop-oldest retry and no drop counter), and when not
streaming the chunk is discarded without touching the queue. -/
theorem C7_unbounded_queue (st : SttAdapter.SttState)
    (chunks : List (List Nat)) (h : st.is_streaming = true) :
    (SttAdapter.sendChunks st chunks).audio_queue = st.audio_queue ++ chunks ∧
    (SttAdapter.sendChunks st chunks).is_streaming = true ∧
    ∀ st' : SttAdapter.SttState, st'.is_streaming = false →
      ∀ c, SttAdapter.send_audio_chunk st' c = st' := by
  refine ⟨sendChunks_queue_of_streaming chunks st h, ?_, ?_⟩
  · rw [sendChunks_is_streaming]
    exact h
  · intro st' h' c
    simp [SttAdapter.send_audio_chunk, h']

/-- Witness for C7 as amended: three chunks sent on a streaming adapter are
all retained in arrival order. -/
theorem C7_witness :
    (SttAdapter.sendChunks { is_streaming := true, audio_queue := [[9]] }
        [[1], [2], [3]]).audio_queue = [[9]] ++ [[1], [2], [3]] :=
  (C7_unbounded_queue { is_streaming := true, audio_queue := [[9]] }
    [[1], [2], [3]] (by decide)).1

/-! ## Claim C8 — listener add/remove round trip and idempotence -/

theorem add_listener_of_mem {now : ℤ} {sid : String} {ws : Nat}
    {st : ConnMgr.CMState} (h : ws ∈ ConnMgr.get_listeners sid st) :
    ConnMgr.add_listener now sid ws st = st := by
  unfold ConnMgr.get_listeners at h
  cases hf : dictFind sid st.streams with
  | none => rw [hf] at h; simp at h
  | some l =>
      have hc : dictContains sid st.streams = true := by
        simp [dictContains, hf]
      rw [hf] at h
      simp only [Option.getD_some] at h
      simp only [ConnMgr.add_listener, hc, if_true, hf, Option.getD_some, h,
        if_pos]

theorem remove_listener_of_not_mem {sid : String} {ws : Nat}
    {st : ConnMgr.CMState} (h : ws ∉ ConnMgr.get_listeners sid st) :
    ConnMgr.remove_listener sid ws st = st := by
  unfold ConnMgr.get_listeners at h
  cases hf : dictFind sid st.streams with
  | none => simp [ConnMgr.remove_listener, hf]
  | some l =>
      rw [hf] at h
      simp only [Option.getD_some] at h
      simp [ConnMgr.remove_listener, hf, h]

theorem mem_get_listeners_add (now : ℤ) (sid : String) (ws : Nat)
    (st : ConnMgr.CMState) :
    ws ∈ ConnMgr.get_listeners sid (ConnMgr.add_listener now sid ws st) := by
  unfold ConnMgr.get_listeners ConnMgr.add_listener
  by_cases hmem : ws ∈ (dictFind sid
      (if dictContains sid st.streams then st.streams
       else st.streams ++ [(sid, [])])).getD []
  · simp only [hmem, if_pos]
  · simp only [hmem, if_neg]
    simp [dictFind_dictInsert_self]

theorem not_mem_get_listeners_remove (sid : String) (ws : Nat)
    (st : ConnMgr.CMState) :
    ws ∉ ConnMgr.get_listeners sid (ConnMgr.remove_listener sid ws st) := by
  cases hf : dictFind sid st.streams with
  | none =>
      have hr : ConnMgr.remove_listener sid ws st = st := by
        simp [ConnMgr.remove_listener, hf]
      rw [hr]
      unfold ConnMgr.get_listeners
      rw [hf]
      simp
  | some l =>
      by_cases hmem : ws ∈ l
      · have hr : ConnMgr.remove_listener sid ws st =
            { streams :=
                if l.filter (fun w => w ≠ ws) = [] then dictErase sid st.streams
                else dictInsert sid (l.filter (fun w => w ≠ ws)) st.streams,
              connection_metadata := dictErase ws st.connection_metadata,
              keepalive_running :=
                if dictErase ws st.connection_metadata = [] then false
                else st.keepalive_running } := by
          simp only [ConnMgr.remove_listener, hf, hmem, if_pos]
        rw [hr]
        unfold ConnMgr.get_listeners
        by_cases hl : l.filter (fun w => w ≠ ws) = []
        · rw [if_pos hl, dictFind_dictErase_self]
          simp
        · rw [if_neg hl, dictFind_dictInsert_self]
          simp only [Option.getD_some]
          intro hcontra
          have := List.of_mem_filter hcontra
          simp at this
      · have hr : ConnMgr.remove_listener sid ws st = st := by
          simp [ConnMgr.remove_listener, hf, hmem]
        rw [hr]
        unfold ConnMgr.get_listeners
        rw [hf]
        simpa using hmem

theorem listeners_round_trip (now : ℤ) (sid : String) (ws : Nat)
    (st : ConnMgr.CMState) (h : ws ∉ ConnMgr.get_listeners sid st) :
    ConnMgr.get_listeners sid
      (ConnMgr.remove_listener sid ws (ConnMgr.add_listener now sid ws st)) =
      ConnMgr.get_listeners sid st := by
  unfold ConnMgr.get_listeners at h ⊢
  cases hf : dictFind sid st.streams with
  | none =>
      have hc : dictContains sid st.streams = false := by
        simp [dictContains, hf]
      have hf0 : dictFind sid (st.streams ++ [(sid, ([] : List Nat))]) =
          some [] := dictFind_append_right sid st.streams [] hf
      have hA : ConnMgr.add_listener now sid ws st =
          { streams := dictInsert sid [ws] (st.streams ++ [(sid, [])]),
            connection_metadata :=
              dictInsert ws ⟨0, now, sid, now⟩ st.connection_metadata,
            keepalive_running := true } := by
        simp [ConnMgr.add_listener, hc, hf0]
      rw [hA]
      have hfA : dictFind sid
          (dictInsert sid [ws] (st.streams ++ [(sid, ([] : List Nat))])) =
          some [ws] := dictFind_dictInsert_self sid [ws] _
      have hfilter : ([ws].filter (fun w => w ≠ ws)) = [] := by simp
      simp only [ConnMgr.remove_listener, hfA, List.mem_singleton, if_pos rfl,
        hfilter]
      simp [dictFind_dictErase_self, hf]
  | some l =>
      have hc : dictContains sid st.streams = true := by
        simp [dictContains, hf]
      rw [hf] at h
      simp only [Option.getD_some] at h
      have hA : ConnMgr.add_listener now sid ws st =
          { streams := dictInsert sid (l ++ [ws]) st.streams,
            connection_metadata :=
              dictInsert ws ⟨0, now, sid, now⟩ st.connection_metadata,
            keepalive_running := true } := by
        simp [ConnMgr.add_listener, hc, hf, h]
      rw [hA]
      have hfA : dictFind sid (dictInsert sid (l ++ [ws]) st.streams) =
          some (l ++ [ws]) := dictFind_dictInsert_self sid (l ++ [ws]) _
      have hmem : ws ∈ l ++ [ws] := by simp
      have hfilter : ((l ++ [ws]).filter (fun w => w ≠ ws)) = l := by
        rw [List.filter_append, filter_ne_of_not_mem h]
        simp
      simp only [ConnMgr.remove_listener, hfA, hmem, if_pos, hfilter]
      by_cases hl : l = []
      · subst hl
        simp [dictFind_dictErase_self, hf]
      · simp [hl, dictFind_dictInsert_self, hf]

theorem add_listener_idem (now now' : ℤ) (sid : String) (ws : Nat)
    (st : ConnMgr.CMState) :
    ConnMgr.add_listener now' sid ws (ConnMgr.add_listener now sid ws st) =
      ConnMgr.add_listener now sid ws st :=
  add_listener_of_mem (mem_get_listeners_add now sid ws st)

theorem remove_listener_idem (sid : String) (ws : Nat) (st : ConnMgr.CMState) :
    ConnMgr.remove_listener sid ws (ConnMgr.remove_listener sid ws st) =
      ConnMgr.remove_listener sid ws st :=
  remove_listener_of_not_mem (not_mem_get_listeners_remove sid ws st)

/-- C8 counterexample: from a state in which socket 7 is already a listener of
stream `"s"`, `add_listener` is a no-op and the following `remove_listener`
deletes the socket, so the add-then-remove pair does not leave
`get_listeners "s"` unchanged — the claim's unconditional round-trip law
fails. -/
theorem C8_counterexample :
    ConnMgr.get_listeners "s"
      (ConnMgr.remove_listener "s" 7
        (ConnMgr.add_listener 1000 "s" 7
          { streams := [("s", [7])],
            connection_metadata := [(7, ⟨0, 995, "s", 995⟩)],
            keepalive_running := true })) = [] ∧
    ConnMgr.get_listeners "s"
      { streams := [("s", [7])],
        connection_metadata := [(7, ⟨0, 995, "s", 995⟩)],
        keepalive_running := true } = [7] := by
  constructor
  · decide
  · decide

/-- C8 as amended: `addListener(s, x)` followed by `removeListener(s, x)`
restores `getListeners(s)` provided `x` was not already a listener of `s`
(when it was, the add is a no-op and the remove deletes `x`); both operations
are idempotent on repetition, as full-state equalities. -/
theorem C8_round_trip_and_idempotence :
    (∀ (now : ℤ) (sid : String) (ws : Nat) (st : ConnMgr.CMState),
      ws ∉ ConnMgr.get_listeners sid st →
      ConnMgr.get_listeners sid
        (ConnMgr.remove_listener sid ws (ConnMgr.add_listener now sid ws st)) =
        ConnMgr.get_listeners sid st) ∧
    (∀ (now now' : ℤ) (sid : String) (ws : Nat) (st : ConnMgr.CMState),
      ConnMgr.add_listener now' sid ws (ConnMgr.add_listener now sid ws st) =
        ConnMgr.add_listener now sid ws st) ∧
    (∀ (sid : String) (ws : Nat) (st : ConnMgr.CMState),
      ConnMgr.remove_listener sid ws (ConnMgr.remove_listener sid ws st) =
        ConnMgr.remove_listener sid ws st) :=
  ⟨listeners_round_trip, add_listener_idem, remove_listener_idem⟩

/-- Witness for C8 as amended: on a manager with listener 9 on stream `"s"`,
adding and then removing the fresh socket 7 restores `getListeners "s"` to
`[9]`. -/
theorem C8_witness :
    ConnMgr.get_listeners "s"
      (ConnMgr.remove_listener "s" 7
        (ConnMgr.add_listener 1000 "s" 7
          { streams := [("s", [9])],
            connection_metadata := [(9, ⟨0, 995, "s", 995⟩)],
            keepalive_running := true })) =
      ConnMgr.get_listeners "s"
        { streams := [("s", [9])],
          connection_metadata := [(9, ⟨0, 995, "s", 995⟩)],
          keepalive_running := true } :=
  C8_round_trip_and_idempotence.1 1000 "s" 7
    { streams := [("s", [9])],
      connection_metadata := [(9, ⟨0, 995, "s", 995⟩)],
      keepalive_running := true } (by decide)

/-! ## Claim C5 — translation-cache keying and purity -/

/-- C5 counterexample: with a succeeding translate call and a failing
synthesize call, the pipeline fails (nothing is broadcast) yet the translation
has already been inserted into the cache — refuting "never cached when the
pipeline fails". -/
theorem C5_counterexample :
    (Services.on_transcript (fun _ => some "hello world") (fun _ => none)
      "demo" Services.initState "Hallo" true).translation_cache =
      [("hallo", "hello world")] ∧
    (Services.on_transcript (fun _ => some "hello world") (fun _ => none)
      "demo" Services.initState "Hallo" true).broadcasts = [] := by
  constructor
  · decide
  · decide

/-- C5 as amended: the cache is keyed by the transcript whitespace-trimmed and
lowercased; an entry is inserted exactly when the translate call succeeds —
including runs whose subsequent synthesize step fails, where the pipeline
broadcasts nothing but the translation stays cached; when translate fails
nothing is cached and nothing is broadcast; and a repeated final transcript
with the same normalized key is answered from the cache with no additional
translate call. -/
theorem C5_cache_semantics (tr : String → Option String)
    (tts : String → Option (List Nat)) (sid t e : String) (a : List Nat)
    (st : Services.PipelineState) (h1 : pyStrip t ≠ "")
    (hmiss : dictFind (Services.cacheKeyOf t) st.translation_cache = none)
    (h2 : tr t = some e) (h3 : tts e = some a) :
    dictFind (Services.cacheKeyOf t)
      (Services.on_transcript tr tts sid st t true).translation_cache =
      some e ∧
    (∀ tts' : String → Option (List Nat), tts' e = none →
      (Services.on_transcript tr tts' sid st t true).translation_cache =
        dictInsert (Services.cacheKeyOf t) e st.translation_cache ∧
      (Services.on_transcript tr tts' sid st t true).broadcasts =
        st.broadcasts) ∧
    (∀ tr' : String → Option String, tr' t = none →
      (Services.on_transcript tr' tts sid st t true).translation_cache =
        st.translation_cache ∧
      (Services.on_transcript tr' tts sid st t true).broadcasts =
        st.broadcasts) ∧
    ((Services.on_transcript tr tts sid
        (Services.on_transcript tr tts sid st t true) t true).translate_calls =
      (Services.on_transcript tr tts sid st t true).translate_calls ∧
     (Services.on_transcript tr tts sid
        (Services.on_transcript tr tts sid st t true) t true).translation_cache =
      (Services.on_transcript tr tts sid st t true).translation_cache ∧
     (Services.on_transcript tr tts sid
        (Services.on_transcript tr tts sid st t true) t true).broadcasts =
      (Services.on_transcript tr tts sid st t true).broadcasts ++ [(sid, a)]) := by
  have hstep := @Services.on_transcript_miss_success tr tts sid st t e a h1
    hmiss h2 h3
  refine ⟨?_, ?_, ?_, ?_⟩
  · rw [hstep]
    exact dictFind_dictInsert_self _ _ _
  · intro tts' h3'
    rw [@Services.on_transcript_miss_tts_fail tr tts' sid st t e h1 hmiss h2
      h3']
    exact ⟨rfl, rfl⟩
  · intro tr' h2'
    rw [@Services.on_transcript_miss_tr_fail tr' tts sid st t h1 hmiss h2']
    exact ⟨rfl, rfl⟩
  · have hhit : dictFind (Services.cacheKeyOf t)
        (Services.on_transcript tr tts sid st t true).translation_cache =
        some e := by
      rw [hstep]
      exact dictFind_dictInsert_self _ _ _
    rw [@Services.on_transcript_hit tr tts sid
      (Services.on_transcript tr tts sid st t true) t e a h1 hhit h3]
    exact ⟨rfl, rfl, rfl⟩

/-- Witness for C5 as amended at a concrete run: first processing of
`"Hallo"` caches `("hallo" ↦ "hello world")` and a second processing issues
no further translate call. -/
theorem C5_witness :
    dictFind (Services.cacheKeyOf "Hallo")
      (Services.on_transcript (fun _ => some "hello world")
        (fun _ => some [7, 8]) "demo" Services.initState "Hallo"
        true).translation_cache = some "hello world" :=
  (C5_cache_semantics (fun _ => some "hello world") (fun _ => some [7, 8])
    "demo" "Hallo" "hello world" [7, 8] Services.initState (by decide) rfl rfl
    rfl).1

/-! ## Claim C1 — broadcasts per finalized transcript -/

/-- C1 counterexample: on the streaming path, a finalized, accepted transcript
whose translate call fails produces **zero** broadcasts — the
`on_transcript` handler logs the exception and no fallback payload is
broadcast, refuting "never zero broadcasts". -/
theorem C1_counterexample :
    (Services.on_transcript (fun _ => none) (fun _ => some [1, 2]) "demo"
      Services.initState "hallo wereld" true).broadcasts = [] ∧
    (true && (pyStrip "hallo wereld" != "")) = true ∧
    (Services.on_transcript (fun _ => none) (fun _ => some [1, 2]) "demo"
      Services.initState "hallo wereld" true).translate_calls = 1 := by
  refine ⟨by decide, by decide, by decide⟩

/-- C1 as amended: the speaker-endpoint chunk handler broadcasts at most once
per chunk, and exactly once — synthesized audio or `FALLBACK_AUDIO` — for every
chunk whose pipeline run completes (i.e. is not still buffering); with the
breaker open the single broadcast is the fallback payload.  On the streaming
path, an accepted finalized transcript produces exactly one synthesized
broadcast when translate and synthesize both succeed, and **zero** broadcasts
(no fallback) when either call fails. -/
theorem C1_broadcast_accounting :
    (∀ (b : Speaker.BreakerState) (run : Speaker.PipelineRun),
      (Speaker.websocket_speaker_chunk b run).broadcasts.length ≤ 1) ∧
    (∀ (b : Speaker.BreakerState) (run : Speaker.PipelineRun),
      run.result ≠ .buffering →
      (Speaker.websocket_speaker_chunk b run).broadcasts.length = 1) ∧
    (∀ run : Speaker.PipelineRun,
      (Speaker.websocket_speaker_chunk .opened run).broadcasts =
        [ Speaker.FALLBACK_AUDIO]) ∧
    (∀ (tr : String → Option String) (tts : String → Option (List Nat))
        (sid t e : String) (a : List Nat) (st : Services.PipelineState),
      pyStrip t ≠ "" →
      dictFind (Services.cacheKeyOf t) st.translation_cache = none →
      tr t = some e → tts e = some a →
      (Services.on_transcript tr tts sid st t true).broadcasts =
        st.broadcasts ++ [(sid, a)]) ∧
    (∀ (tr : String → Option String) (tts : String → Option (List Nat))
        (sid t : String) (st : Services.PipelineState),
      pyStrip t ≠ "" →
      dictFind (Services.cacheKeyOf t) st.translation_cache = none →
      tr t = none →
      (Services.on_transcript tr tts sid st t true).broadcasts =
        st.broadcasts) ∧
    (∀ (tr : String → Option String) (tts : String → Option (List Nat))
        (sid t e : String) (st : Services.PipelineState),
      pyStrip t ≠ "" →
      dictFind (Services.cacheKeyOf t) st.translation_cache = none →
      tr t = some e → tts e = none →
      (Services.on_transcript tr tts sid st t true).broadcasts =
        st.broadcasts) := by
  refine ⟨?_, ?_, ?_, ?_, ?_, ?_⟩
  · intro b run
    cases b <;> cases hr : run.result <;>
      simp [Speaker.websocket_speaker_chunk, hr]
  · intro b run hne
    cases b <;> cases hr : run.result <;>
      simp_all [Speaker.websocket_speaker_chunk]
  · intro run
    rfl
  · intro tr tts sid t e a st h1 hmiss h2 h3
    rw [@Services.on_transcript_miss_success tr tts sid st t e a h1 hmiss h2
      h3]
  · intro tr tts sid t st h1 hmiss h2
    rw [@Services.on_transcript_miss_tr_fail tr tts sid st t h1 hmiss h2]
  · intro tr tts sid t e st h1 hmiss h2 h3
    rw [@Services.on_transcript_miss_tts_fail tr tts sid st t e h1 hmiss h2 h3]

/-- Witness for C1 as amended: a completed (timed-out) pipeline run on a closed
breaker yields exactly one broadcast. -/
theorem C1_witness :
    (Speaker.websocket_speaker_chunk (.closed 0)
      ⟨Speaker.PipelineResult.timeout, 3⟩).broadcasts.length = 1 :=
  C1_broadcast_accounting.2.1 (.closed 0) ⟨Speaker.PipelineResult.timeout, 3⟩
    (by decide)

/-! ## Claim C6 — the translation cache is unbounded -/

theorem pyStrip_aKey (n : Nat) : pyStrip (Services.aKey n) = Services.aKey n := by
  have hws : Char.isWhitespace 'a' = false := by decide
  have hdrop : ∀ m : Nat,
      (List.replicate m 'a').dropWhile Char.isWhitespace =
        List.replicate m 'a' := by
    intro m
    cases m with
    | zero => rfl
    | succ k => simp [List.replicate_succ, List.dropWhile_cons, hws]
  show (⟨pyStripList (List.replicate (n + 1) 'a')⟩ : String) = _
  unfold pyStripList
  rw [hdrop, List.reverse_replicate, hdrop, List.reverse_replicate]
  rfl

theorem cacheKeyOf_aKey (n : Nat) :
    Services.cacheKeyOf (Services.aKey n) = Services.aKey n := by
  unfold Services.cacheKeyOf
  rw [pyStrip_aKey]
  show (⟨(List.replicate (n + 1) 'a').map Char.toLower⟩ : String) = _
  rw [List.map_replicate]
  have : Char.toLower 'a' = 'a' := by decide
  rw [this]
  rfl

theorem aKey_ne_empty (n : Nat) : Services.aKey n ≠ "" := by
  intro h
  have := congrArg String.data h
  simp [Services.aKey] at this

theorem aKey_injective : Function.Injective Services.aKey := by
  intro m n h
  have := congrArg (fun s => s.data.length) h
  simp [Services.aKey] at this
  exact this

theorem runFinals_cache_growth (tr : String → Option String)
    (tts : String → Option (List Nat)) (sid : String) :
    ∀ (ts : List String) (st : Services.PipelineState),
      (∀ t ∈ ts, pyStrip t ≠ "") → (∀ t ∈ ts, (tr t).isSome) →
      (ts.map Services.cacheKeyOf).Nodup →
      (∀ t ∈ ts,
        dictFind (Services.cacheKeyOf t) st.translation_cache = none) →
      (Services.runFinals tr tts sid st ts).translation_cache.length =
        st.translation_cache.length + ts.length := by
  intro ts
  induction ts with
  | nil =>
      intro st _ _ _ _
      simp [Services.runFinals]
  | cons t rest ih =>
      intro st hstrip hsucc hnodup hfresh
      have h1 : pyStrip t ≠ "" := hstrip t (List.mem_cons_self t rest)
      have hfind : dictFind (Services.cacheKeyOf t) st.translation_cache =
          none := hfresh t (List.mem_cons_self t rest)
      obtain ⟨e, he⟩ :=
        Option.isSome_iff_exists.mp (hsucc t (List.mem_cons_self t rest))
      have hcache : (Services.on_transcript tr tts sid st t
            true).translation_cache =
          dictInsert (Services.cacheKeyOf t) e st.translation_cache := by
        cases h3 : tts e with
        | none =>
            rw [@Services.on_transcript_miss_tts_fail tr tts sid st t e h1
              hfind he h3]
        | some a =>
            rw [@Services.on_transcript_miss_success tr tts sid st t e a h1
              hfind he h3]
      have hins : dictInsert (Services.cacheKeyOf t) e st.translation_cache =
          st.translation_cache ++ [(Services.cacheKeyOf t, e)] :=
        dictInsert_of_not_contains _ _ _
          ((dictContains_eq_false_iff _ _).mpr hfind)
      have hnodup' := hnodup
      rw [List.map_cons, List.nodup_cons] at hnodup'
      have hrest_fresh : ∀ t' ∈ rest,
          dictFind (Services.cacheKeyOf t')
            (Services.on_transcript tr tts sid st t
              true).translation_cache = none := by
        intro t' ht'
        rw [hcache, hins]
        apply dictFind_append_single_ne
        · exact hfresh t' (List.mem_cons_of_mem t ht')
        · intro heq
          exact hnodup'.1 (heq ▸ List.mem_map_of_mem Services.cacheKeyOf ht')
      have hrec := ih (Services.on_transcript tr tts sid st t true)
        (fun t' ht' => hstrip t' (List.mem_cons_of_mem t ht'))
        (fun t' ht' => hsucc t' (List.mem_cons_of_mem t ht'))
        hnodup'.2 hrest_fresh
      show (Services.runFinals tr tts sid
          (Services.on_transcript tr tts sid st t true)
          rest).translation_cache.length = _
      rw [hrec, hcache, hins]
      simp only [List.length_append, List.length_singleton, List.length_cons,
        List.length_nil]
      omega

/-- C6 counterexample: feeding the pipeline 10 001 finalized transcripts with
pairwise distinct normalized keys (every translate call succeeding) leaves
10 001 > 10 000 entries in the cache — there is no 10 000-entry LRU bound. -/
theorem C6_counterexample :
    10000 <
      (Services.runFinals (fun _ => some "e") (fun _ => none) "s"
        Services.initState
        ((List.range 10001).map Services.aKey)).translation_cache.length := by
  have hgrow := runFinals_cache_growth (fun _ => some "e") (fun _ => none) "s"
    ((List.range 10001).map Services.aKey) Services.initState
    (by
      intro t ht
      obtain ⟨n, _, rfl⟩ := List.mem_map.mp ht
      rw [pyStrip_aKey]
      exact aKey_ne_empty n)
    (by intro t _; rfl)
    (by
      have hmapmap : ((List.range 10001).map Services.aKey).map
          Services.cacheKeyOf = (List.range 10001).map Services.aKey := by
        rw [List.map_map]
        apply List.map_congr_left
        intro n _
        exact cacheKeyOf_aKey n
      rw [hmapmap]
      exact (List.nodup_range 10001).map aKey_injective)
    (by intro t _; rfl)
  rw [hgrow]
  simp

/-- C6 as amended: the process-wide translation cache is a plain dict with no
eviction: `on_transcript` never shrinks it (no LRU, no bound), and a run over
transcripts with pairwise distinct fresh normalized keys whose translate calls
all succeed grows it by exactly one entry per transcript, beyond any fixed
bound such as 10 000. -/
theorem C6_cache_unbounded :
    (∀ (tr : String → Option String) (tts : String → Option (List Nat))
        (sid t : String) (fin : Bool) (st : Services.PipelineState),
      st.translation_cache.length ≤
        (Services.on_transcript tr tts sid st t fin).translation_cache.length) ∧
    (∀ (tr : String → Option String) (tts : String → Option (List Nat))
        (sid : String) (ts : List String) (st : Services.PipelineState),
      (∀ t ∈ ts, pyStrip t ≠ "") → (∀ t ∈ ts, (tr t).isSome) →
      (ts.map Services.cacheKeyOf).Nodup →
      (∀ t ∈ ts,
        dictFind (Services.cacheKeyOf t) st.translation_cache = none) →
      (Services.runFinals tr tts sid st ts).translation_cache.length =
        st.translation_cache.length + ts.length) := by
  constructor
  · intro tr tts sid t fin st
    by_cases hcond : (fin && (pyStrip t != "")) = true
    · obtain ⟨hfin, hne⟩ := Bool.and_eq_true_iff.mp hcond
      subst hfin
      have h1 : pyStrip t ≠ "" := by simpa [bne_iff_ne] using hne
      cases hfind : dictFind (Services.cacheKeyOf t) st.translation_cache with
      | none =>
          cases h2 : tr t with
          | none =>
              rw [@Services.on_transcript_miss_tr_fail tr tts sid st t h1
                hfind h2]
          | some e =>
              cases h3 : tts e with
              | none =>
                  rw [@Services.on_transcript_miss_tts_fail tr tts sid st t e
                    h1 hfind h2 h3]
                  exact length_le_length_dictInsert _ _ _
              | some a =>
                  rw [@Services.on_transcript_miss_success tr tts sid st t e a
                    h1 hfind h2 h3]
                  exact length_le_length_dictInsert _ _ _
      | some e =>
          cases h3 : tts e with
          | none =>
              rw [@Services.on_transcript_hit_tts_fail tr tts sid st t e h1
                hfind h3]
          | some a =>
              rw [@Services.on_transcript_hit tr tts sid st t e a h1 hfind h3]
    · rw [Services.on_transcript_skip (by simpa using hcond)]
  · exact fun tr tts sid ts st => runFinals_cache_growth tr tts sid ts st

/-- Witness for C6 as amended: two distinct fresh transcripts grow the empty
cache to exactly two entries. -/
theorem C6_witness :
    (Services.runFinals (fun _ => some "e") (fun _ => none) "s"
      Services.initState ["a", "aa"]).translation_cache.length = 0 + 2 :=
  C6_cache_unbounded.2 (fun _ => some "e") (fun _ => none) "s" ["a", "aa"]
    Services.initState (by decide) (by intro t _; rfl) (by decide)
    (by intro t _; rfl)

/-! ## Claim C10 — orchestrator recovery accounting

Helper lemmas tracking `stream_status` lookups through each
`FallbackOrchestrator` operation. -/

namespace Orch

theorem get_stream_status_snd_find_ne {sid sid' : String} {st : OrchState}
    (h : sid ≠ sid') :
    dictFind sid ((get_stream_status sid' st).2).stream_status =
      dictFind sid st.stream_status := by
  unfold get_stream_status
  cases hf : dictFind sid' st.stream_status with
  | none => simp [dictFind_dictInsert_ne _ _ h]
  | some s => simp

theorem get_stream_status_fst_attempts (sid : String) (st : OrchState) :
    (get_stream_status sid st).1.recovery_attempts =
      recoveryAttemptsOf sid st := by
  unfold get_stream_status recoveryAttemptsOf
  cases hf : dictFind sid st.stream_status <;> simp [hf]

theorem get_stream_status_fst_mode (sid : String) (st : OrchState) :
    (get_stream_status sid st).1.current_mode = get_mode_for_stream sid st := by
  unfold get_stream_status get_mode_for_stream
  cases hf : dictFind sid st.stream_status <;> simp [hf]

theorem recoveryAttempts_get_snd (sid sid' : String) (st : OrchState) :
    recoveryAttemptsOf sid ((get_stream_status sid' st).2) =
      recoveryAttemptsOf sid st := by
  by_cases h : sid = sid'
  · subst h
    unfold get_stream_status recoveryAttemptsOf
    cases hf : dictFind sid st.stream_status with
    | none => simp [hf, dictFind_dictInsert_self]
    | some s => simp [hf]
  · unfold recoveryAttemptsOf
    rw [get_stream_status_snd_find_ne h]

theorem get_mode_get_snd (sid sid' : String) (st : OrchState) :
    get_mode_for_stream sid ((get_stream_status sid' st).2) =
      get_mode_for_stream sid st := by
  by_cases h : sid = sid'
  · subst h
    unfold get_stream_status get_mode_for_stream
    cases hf : dictFind sid st.stream_status with
    | none => simp [hf, dictFind_dictInsert_self]
    | some s => simp [hf]
  · unfold get_mode_for_stream
    rw [get_stream_status_snd_find_ne h]
    cases hf : dictFind sid st.stream_status with
    | none =>
        unfold get_stream_status
        cases hf' : dictFind sid' st.stream_status <;> simp
    | some s => simp

theorem decide_mode_snd (now : ℚ) (sid' : String) (metrics : Option CMetrics)
    (audio : Option AudioChars) (st : OrchState) :
    (decide_processing_mode now sid' metrics audio st).2 =
      (get_stream_status sid' st).2 := by
  rcases hgs : get_stream_status sid' st with ⟨status, st1⟩
  simp only [decide_processing_mode, hgs]
  by_cases hf : should_force_fallback now status st1 = true
  · simp [hf]
  · cases metrics with
    | none => simp [hf]
    | some m =>
        by_cases hq : calc_connection_quality_score m < quality_threshold <;>
          simp [hf, hq]

theorem execute_fallback_find (now : ℚ) (sid sid' : String)
    (f t : ProcessingMode) (r : FallbackReason) (st : OrchState) :
    dictFind sid (execute_fallback now sid' f t r st).stream_status =
      if sid = sid' then
        some { (get_stream_status sid' st).1 with current_mode := t }
      else dictFind sid st.stream_status := by
  rcases hgs : get_stream_status sid' st with ⟨status, st1⟩
  have hfst : (get_stream_status sid' st).1 = status := by rw [hgs]
  have hsnd : (get_stream_status sid' st).2 = st1 := by rw [hgs]
  simp only [execute_fallback, hgs]
  by_cases h : sid = sid'
  · subst h
    rw [if_pos rfl]
    exact dictFind_dictInsert_self _ _ _
  · rw [dictFind_dictInsert_ne _ _ h, if_neg h, ← hsnd,
      get_stream_status_snd_find_ne h]

theorem record_success_find (now : ℚ) (sid sid' : String) (ms : ℚ)
    (st : OrchState) :
    dictFind sid (record_success now sid' ms st).stream_status =
      if sid = sid' then
        some { (get_stream_status sid' st).1 with
               last_success_time := some now, consecutive_failures := 0,
               total_processing_time :=
                 (get_stream_status sid' st).1.total_processing_time + ms }
      else dictFind sid st.stream_status := by
  rcases hgs : get_stream_status sid' st with ⟨status, st1⟩
  have hfst : (get_stream_status sid' st).1 = status := by rw [hgs]
  have hsnd : (get_stream_status sid' st).2 = st1 := by rw [hgs]
  simp only [record_success, hgs]
  by_cases h : sid = sid'
  · subst h
    rw [if_pos rfl]
    exact dictFind_dictInsert_self _ _ _
  · rw [dictFind_dictInsert_ne _ _ h, if_neg h, ← hsnd,
      get_stream_status_snd_find_ne h]

theorem find_insert_get (sid sid' : String) (v : StreamStatus)
    (st : OrchState) :
    dictFind sid
      (dictInsert sid' v ((get_stream_status sid' st).2).stream_status) =
      if sid = sid' then some v else dictFind sid st.stream_status := by
  by_cases h : sid = sid'
  · subst h
    rw [if_pos rfl]
    exact dictFind_dictInsert_self _ _ _
  · rw [if_neg h, dictFind_dictInsert_ne _ _ h,
      get_stream_status_snd_find_ne h]

theorem get_fst_of_find {sid : String} {st : OrchState} {s : StreamStatus}
    (h : dictFind sid st.stream_status = some s) :
    (get_stream_status sid st).1 = s := by
  unfold get_stream_status
  simp [h]

theorem get_snd_global (sid : String) (st : OrchState) :
    ((get_stream_status sid st).2).global_mode = st.global_mode := by
  unfold get_stream_status
  cases hf : dictFind sid st.stream_status <;> simp [hf]

theorem execute_fallback_global (now : ℚ) (sid' : String)
    (f t : ProcessingMode) (r : FallbackReason) (st : OrchState) :
    (execute_fallback now sid' f t r st).global_mode = st.global_mode := by
  rcases hgs : get_stream_status sid' st with ⟨status, st1⟩
  have hsnd : (get_stream_status sid' st).2 = st1 := by rw [hgs]
  simp only [execute_fallback, hgs]
  rw [← hsnd]
  exact get_snd_global sid' st

theorem handle_error_find_ne (now : ℚ) {sid sid' : String} (msg : String)
    (mode : ProcessingMode) (st : OrchState) (h : sid ≠ sid') :
    dictFind sid
      ((handle_processing_error now sid' msg mode st).2).stream_status =
      dictFind sid st.stream_status := by
  rcases hgs : get_stream_status sid' st with ⟨status, st1⟩
  have hsnd : (get_stream_status sid' st).2 = st1 := by rw [hgs]
  simp only [handle_processing_error, hgs]
  split
  · dsimp only
    rw [execute_fallback_find, if_neg h]
    dsimp only
    rw [← hsnd, find_insert_get, if_neg h]
  · dsimp only
    rw [← hsnd, find_insert_get, if_neg h]

theorem handle_error_global (now : ℚ) (sid' : String) (msg : String)
    (mode : ProcessingMode) (st : OrchState) :
    ((handle_processing_error now sid' msg mode st).2).global_mode =
      st.global_mode := by
  rcases hgs : get_stream_status sid' st with ⟨status, st1⟩
  have hsnd : (get_stream_status sid' st).2 = st1 := by rw [hgs]
  simp only [handle_processing_error, hgs]
  split
  · dsimp only
    rw [execute_fallback_global]
    dsimp only
    rw [← hsnd]
    exact get_snd_global sid' st
  · dsimp only
    rw [← hsnd]
    exact get_snd_global sid' st

theorem handle_error_attempts (now : ℚ) (sid sid' : String) (msg : String)
    (mode : ProcessingMode) (st : OrchState) :
    recoveryAttemptsOf sid
      ((handle_processing_error now sid' msg mode st).2) =
      recoveryAttemptsOf sid st := by
  by_cases h : sid = sid'
  · subst h
    rcases hgs : get_stream_status sid st with ⟨status, st1⟩
    have hsnd : (get_stream_status sid st).2 = st1 := by rw [hgs]
    have hra : status.recovery_attempts = recoveryAttemptsOf sid st := by
      rw [← get_stream_status_fst_attempts sid st, hgs]
    simp only [handle_processing_error, hgs]
    split
    · dsimp only
      unfold recoveryAttemptsOf
      rw [execute_fallback_find, if_pos rfl,
        get_fst_of_find (dictFind_dictInsert_self _ _ _)]
      simpa using hra
    · dsimp only
      simp [recoveryAttemptsOf, dictFind_dictInsert_self, hra]
  · unfold recoveryAttemptsOf
    rw [handle_error_find_ne now msg mode st h]

theorem handle_error_mode_buffered (now : ℚ) (sid sid' : String) (msg : String)
    (mode : ProcessingMode) (st : OrchState)
    (h : get_mode_for_stream sid st = ProcessingMode.buffered) :
    get_mode_for_stream sid
      ((handle_processing_error now sid' msg mode st).2) =
      ProcessingMode.buffered := by
  by_cases hs : sid = sid'
  · subst hs
    rcases hgs : get_stream_status sid st with ⟨status, st1⟩
    have hsnd : (get_stream_status sid st).2 = st1 := by rw [hgs]
    have hmode : status.current_mode = ProcessingMode.buffered := by
      rw [← h, ← get_stream_status_fst_mode sid st, hgs]
    simp only [handle_processing_error, hgs]
    split
    · dsimp only
      unfold get_mode_for_stream
      rw [execute_fallback_find, if_pos rfl]
    · dsimp only
      unfold get_mode_for_stream
      rw [dictFind_dictInsert_self]
      exact hmode
  · have hgl := handle_error_global now sid' msg mode st
    unfold get_mode_for_stream at h ⊢
    rw [handle_error_find_ne now msg mode st hs, hgl]
    exact h

theorem get_mode_congr {sid : String} {st st' : OrchState}
    (hf : dictFind sid st'.stream_status = dictFind sid st.stream_status)
    (hg : st'.global_mode = st.global_mode) :
    get_mode_for_stream sid st' = get_mode_for_stream sid st := by
  unfold get_mode_for_stream
  rw [hf, hg]

theorem record_success_global (now : ℚ) (sid' : String) (ms : ℚ)
    (st : OrchState) :
    (record_success now sid' ms st).global_mode = st.global_mode := by
  rcases hgs : get_stream_status sid' st with ⟨status, st1⟩
  have hsnd : (get_stream_status sid' st).2 = st1 := by rw [hgs]
  simp only [record_success, hgs]
  rw [← hsnd]
  exact get_snd_global sid' st

theorem record_success_attempts (now : ℚ) (sid sid' : String) (ms : ℚ)
    (st : OrchState) :
    recoveryAttemptsOf sid (record_success now sid' ms st) =
      recoveryAttemptsOf sid st := by
  unfold recoveryAttemptsOf
  rw [record_success_find]
  by_cases h : sid = sid'
  · subst h
    rw [if_pos rfl]
    simp only [Option.map_some', Option.getD_some]
    exact get_stream_status_fst_attempts sid st
  · rw [if_neg h]

theorem record_success_consecutive (now : ℚ) (sid : String) (ms : ℚ)
    (st : OrchState) :
    consecutiveFailuresOf sid (record_success now sid ms st) = 0 := by
  unfold consecutiveFailuresOf
  rw [record_success_find, if_pos rfl]
  simp

theorem record_success_mode (now : ℚ) (sid sid' : String) (ms : ℚ)
    (st : OrchState) :
    get_mode_for_stream sid (record_success now sid' ms st) =
      get_mode_for_stream sid st := by
  by_cases h : sid = sid'
  · subst h
    unfold get_mode_for_stream
    rw [record_success_find, if_pos rfl]
    dsimp only
    rw [get_stream_status_fst_mode]
    rfl
  · apply get_mode_congr
    · rw [record_success_find, if_neg h]
    · exact record_success_global now sid' ms st

theorem should_attempt_snd (now : ℚ) (sid : String) (st : OrchState) :
    (should_attempt_recovery now sid st).2 = (get_stream_status sid st).2 := by
  rcases hgs : get_stream_status sid st with ⟨status, st1⟩
  simp only [should_attempt_recovery, hgs]
  split_ifs <;> rfl

theorem should_attempt_false_of_max (now : ℚ) {sid : String} {st : OrchState}
    (h : max_recovery_attempts ≤ recoveryAttemptsOf sid st) :
    (should_attempt_recovery now sid st).1 = false := by
  rcases hgs : get_stream_status sid st with ⟨status, st1⟩
  have hra : status.recovery_attempts = recoveryAttemptsOf sid st := by
    rw [← get_stream_status_fst_attempts sid st, hgs]
  have hcap : max_recovery_attempts ≤ status.recovery_attempts := by
    rw [hra]
    exact h
  simp only [should_attempt_recovery, hgs]
  by_cases hm : status.current_mode ≠ ProcessingMode.buffered
  · simp [hm]
  · simp [hm, hcap]

theorem attempt_recovery_of_blocked (now : ℚ) {sid : String} {st : OrchState}
    (h : (should_attempt_recovery now sid st).1 = false) :
    (attempt_recovery now sid st).2 = (should_attempt_recovery now sid st).2 := by
  rcases hs : should_attempt_recovery now sid st with ⟨ok, st1⟩
  rw [hs] at h
  simp only at h
  simp [attempt_recovery, hs, h]

theorem attempt_recovery_stuck_self (now : ℚ) {sid : String} {st : OrchState}
    (h : max_recovery_attempts ≤ recoveryAttemptsOf sid st) :
    (attempt_recovery now sid st).2 = (get_stream_status sid st).2 := by
  rw [attempt_recovery_of_blocked now (should_attempt_false_of_max now h),
    should_attempt_snd]

theorem attempt_recovery_of_allowed (now : ℚ) {sid : String} {st : OrchState}
    {st1 : OrchState}
    (hs : should_attempt_recovery now sid st = (true, st1)) :
    (attempt_recovery now sid st).2 = do_recover now sid st1 := by
  simp [attempt_recovery, hs]

theorem do_recover_attempts_self (now : ℚ) (sid : String) (st1 : OrchState) :
    recoveryAttemptsOf sid (do_recover now sid st1) =
      recoveryAttemptsOf sid st1 + 1 := by
  rcases hg2 : get_stream_status sid st1 with ⟨status2, st2⟩
  have hra2 : status2.recovery_attempts = recoveryAttemptsOf sid st1 := by
    rw [← get_stream_status_fst_attempts sid st1, hg2]
  simp only [do_recover, hg2]
  try dsimp only
  unfold recoveryAttemptsOf
  rw [execute_fallback_find, if_pos rfl,
    get_fst_of_find (dictFind_dictInsert_self _ _ _)]
  simp only [Option.map_some', Option.getD_some]
  simp only [hra2]
  rfl

theorem do_recover_attempts_ne (now : ℚ) {sid sid' : String} (st1 : OrchState)
    (h : sid ≠ sid') :
    recoveryAttemptsOf sid (do_recover now sid' st1) =
      recoveryAttemptsOf sid st1 := by
  rcases hg2 : get_stream_status sid' st1 with ⟨status2, st2⟩
  have hst2 : (get_stream_status sid' st1).2 = st2 := by rw [hg2]
  simp only [do_recover, hg2]
  try dsimp only
  unfold recoveryAttemptsOf
  rw [execute_fallback_find, if_neg h]
  try dsimp only
  rw [← hst2, find_insert_get, if_neg h]

theorem do_recover_find_ne (now : ℚ) {sid sid' : String} (st1 : OrchState)
    (h : sid ≠ sid') :
    dictFind sid (do_recover now sid' st1).stream_status =
      dictFind sid st1.stream_status := by
  rcases hg2 : get_stream_status sid' st1 with ⟨status2, st2⟩
  have hst2 : (get_stream_status sid' st1).2 = st2 := by rw [hg2]
  simp only [do_recover, hg2]
  try dsimp only
  rw [execute_fallback_find, if_neg h]
  try dsimp only
  rw [← hst2, find_insert_get, if_neg h]

theorem do_recover_global (now : ℚ) (sid' : String) (st1 : OrchState) :
    (do_recover now sid' st1).global_mode = st1.global_mode := by
  rcases hg2 : get_stream_status sid' st1 with ⟨status2, st2⟩
  have hst2 : (get_stream_status sid' st1).2 = st2 := by rw [hg2]
  simp only [do_recover, hg2]
  try dsimp only
  rw [execute_fallback_global]
  try dsimp only
  rw [← hst2]
  exact get_snd_global sid' st1

theorem attempt_recovery_attempts_mono (now : ℚ) (sid sid' : String)
    (st : OrchState) :
    recoveryAttemptsOf sid st ≤
      recoveryAttemptsOf sid ((attempt_recovery now sid' st).2) := by
  rcases hs : should_attempt_recovery now sid' st with ⟨ok, st1⟩
  have hst1 : st1 = (get_stream_status sid' st).2 := by
    rw [← should_attempt_snd now sid' st, hs]
  cases ok with
  | false =>
      have hb : (should_attempt_recovery now sid' st).1 = false := by
        rw [hs]
      rw [attempt_recovery_of_blocked now hb, should_attempt_snd,
        recoveryAttempts_get_snd]
  | true =>
      rw [attempt_recovery_of_allowed now hs]
      by_cases h : sid = sid'
      · subst h
        rw [do_recover_attempts_self, hst1, recoveryAttempts_get_snd]
        exact Nat.le_succ _
      · rw [do_recover_attempts_ne now st1 h, hst1, recoveryAttempts_get_snd]

theorem attempt_recovery_find_ne (now : ℚ) {sid sid' : String}
    (st : OrchState) (h : sid ≠ sid') :
    dictFind sid ((attempt_recovery now sid' st).2).stream_status =
      dictFind sid st.stream_status := by
  rcases hs : should_attempt_recovery now sid' st with ⟨ok, st1⟩
  have hst1 : st1 = (get_stream_status sid' st).2 := by
    rw [← should_attempt_snd now sid' st, hs]
  cases ok with
  | false =>
      have hb : (should_attempt_recovery now sid' st).1 = false := by
        rw [hs]
      rw [attempt_recovery_of_blocked now hb, should_attempt_snd,
        get_stream_status_snd_find_ne h]
  | true =>
      rw [attempt_recovery_of_allowed now hs, do_recover_find_ne now st1 h,
        hst1, get_stream_status_snd_find_ne h]

theorem attempt_recovery_global (now : ℚ) (sid' : String) (st : OrchState) :
    ((attempt_recovery now sid' st).2).global_mode = st.global_mode := by
  rcases hs : should_attempt_recovery now sid' st with ⟨ok, st1⟩
  have hst1 : st1 = (get_stream_status sid' st).2 := by
    rw [← should_attempt_snd now sid' st, hs]
  cases ok with
  | false =>
      have hb : (should_attempt_recovery now sid' st).1 = false := by
        rw [hs]
      rw [attempt_recovery_of_blocked now hb, should_attempt_snd]
      exact get_snd_global sid' st
  | true =>
      rw [attempt_recovery_of_allowed now hs, do_recover_global, hst1]
      exact get_snd_global sid' st

theorem applyOp_attempts_mono (st : OrchState) (op : OrchOp) (sid : String) :
    recoveryAttemptsOf sid st ≤ recoveryAttemptsOf sid (applyOp st op) := by
  cases op with
  | decideMode now sid' metrics audio =>
      simp only [applyOp]
      rw [decide_mode_snd, recoveryAttempts_get_snd]
  | handleError now sid' msg mode =>
      simp only [applyOp]
      exact le_of_eq (handle_error_attempts now sid sid' msg mode st).symm
  | recordSuccess now sid' ms =>
      simp only [applyOp]
      exact le_of_eq (record_success_attempts now sid sid' ms st).symm
  | attemptRecovery now sid' =>
      simp only [applyOp]
      exact attempt_recovery_attempts_mono now sid sid' st

theorem applyOps_attempts_mono (ops : List OrchOp) :
    ∀ (st : OrchState) (sid : String),
      recoveryAttemptsOf sid st ≤ recoveryAttemptsOf sid (applyOps st ops) := by
  induction ops with
  | nil => intro st sid; exact le_refl _
  | cons op rest ih =>
      intro st sid
      exact le_trans (applyOp_attempts_mono st op sid) (ih (applyOp st op) sid)

theorem applyOp_stuck (st : OrchState) (op : OrchOp) (sid : String)
    (h1 : get_mode_for_stream sid st = ProcessingMode.buffered)
    (h2 : max_recovery_attempts ≤ recoveryAttemptsOf sid st) :
    get_mode_for_stream sid (applyOp st op) = ProcessingMode.buffered ∧
      max_recovery_attempts ≤ recoveryAttemptsOf sid (applyOp st op) := by
  refine ⟨?_, le_trans h2 (applyOp_attempts_mono st op sid)⟩
  cases op with
  | decideMode now sid' metrics audio =>
      simp only [applyOp]
      rw [decide_mode_snd, get_mode_get_snd]
      exact h1
  | handleError now sid' msg mode =>
      simp only [applyOp]
      exact handle_error_mode_buffered now sid sid' msg mode st h1
  | recordSuccess now sid' ms =>
      simp only [applyOp]
      rw [record_success_mode]
      exact h1
  | attemptRecovery now sid' =>
      simp only [applyOp]
      by_cases h : sid = sid'
      · subst h
        rw [attempt_recovery_stuck_self now h2, get_mode_get_snd]
        exact h1
      · rw [get_mode_congr (attempt_recovery_find_ne now st h)
          (attempt_recovery_global now sid' st)]
        exact h1

theorem applyOps_stuck (ops : List OrchOp) :
    ∀ (st : OrchState) (sid : String),
      get_mode_for_stream sid st = ProcessingMode.buffered →
      max_recovery_attempts ≤ recoveryAttemptsOf sid st →
      get_mode_for_stream sid (applyOps st ops) = ProcessingMode.buffered ∧
        max_recovery_attempts ≤ recoveryAttemptsOf sid (applyOps st ops) := by
  induction ops with
  | nil => intro st sid h1 h2; exact ⟨h1, h2⟩
  | cons op rest ih =>
      intro st sid h1 h2
      obtain ⟨h1', h2'⟩ := applyOp_stuck st op sid h1 h2
      exact ih (applyOp st op) sid h1' h2'

end Orch

/-- C10: for every stream, the orchestrator's `recovery_attempts` counter
never decreases under any sequence of decide / handle-error / record-success /
attempt-recovery operations; `record_success` resets only
`consecutive_failures` (never `recovery_attempts`); once a stream has
accumulated `max_recovery_attempts` (= 5) recovery attempts,
`should_attempt_recovery` returns false on every later call; and a stream in
buffered mode with the cap reached stays in buffered mode under every further
sequence of these operations. -/
theorem C10_recovery_accounting :
    (∀ (st : Orch.OrchState) (ops : List Orch.OrchOp) (sid : String),
      Orch.recoveryAttemptsOf sid st ≤
        Orch.recoveryAttemptsOf sid (Orch.applyOps st ops)) ∧
    (∀ (now : ℚ) (sid : String) (ms : ℚ) (st : Orch.OrchState),
      Orch.recoveryAttemptsOf sid (Orch.record_success now sid ms st) =
        Orch.recoveryAttemptsOf sid st ∧
      Orch.consecutiveFailuresOf sid (Orch.record_success now sid ms st) = 0) ∧
    (∀ (now : ℚ) (sid : String) (st : Orch.OrchState),
      Orch.max_recovery_attempts ≤ Orch.recoveryAttemptsOf sid st →
      (Orch.should_attempt_recovery now sid st).1 = false) ∧
    (∀ (st : Orch.OrchState) (ops : List Orch.OrchOp) (sid : String),
      Orch.get_mode_for_stream sid st = Orch.ProcessingMode.buffered →
      Orch.max_recovery_attempts ≤ Orch.recoveryAttemptsOf sid st →
      Orch.get_mode_for_stream sid (Orch.applyOps st ops) =
        Orch.ProcessingMode.buffered) := by
  refine ⟨?_, ?_, ?_, ?_⟩
  · intro st ops sid
    exact Orch.applyOps_attempts_mono ops st sid
  · intro now sid ms st
    exact ⟨Orch.record_success_attempts now sid sid ms st,
      Orch.record_success_consecutive now sid ms st⟩
  · intro now sid st h
    exact Orch.should_attempt_false_of_max now h
  · intro st ops sid h1 h2
    exact (Orch.applyOps_stuck ops st sid h1 h2).1

/-- Witness for C10: a stream stuck at 5 recovery attempts in buffered mode
stays buffered through a recorded success followed by a recovery attempt. -/
theorem C10_witness :
    Orch.get_mode_for_stream "s"
      (Orch.applyOps
        { stream_status :=
            [("s", ⟨"s", Orch.ProcessingMode.buffered, 3, some 100, some 120,
              0, 50, 5⟩)],
          fallback_history := [], global_mode := Orch.ProcessingMode.streaming,
          failure_counters := [], last_failure_time := [("s", 100)],
          stats := ⟨0, 0, 0, 0⟩ }
        [Orch.OrchOp.recordSuccess 200 "s" 10,
         Orch.OrchOp.attemptRecovery 300 "s"]) =
      Orch.ProcessingMode.buffered :=
  (C10_recovery_accounting.2.2.2
    { stream_status :=
        [("s", ⟨"s", Orch.ProcessingMode.buffered, 3, some 100, some 120,
          0, 50, 5⟩)],
      fallback_history := [], global_mode := Orch.ProcessingMode.streaming,
      failure_counters := [], last_failure_time := [("s", 100)],
      stats := ⟨0, 0, 0, 0⟩ }
    [Orch.OrchOp.recordSuccess 200 "s" 10, Orch.OrchOp.attemptRecovery 300 "s"]
    "s" (by decide) (by decide))

/-! ## C3 — restart-adapter session bound and no-drop conservation -/

namespace RestartAdapter

theorem tick_drain (t c : Nat) (a : AdapterState) (h : a.draining = true) :
    tick t c a =
      { session_start := t, draining := false, queue := a.queue ++ [c],
        sent := a.sent, completed := a.completed } := by
  simp [tick, h]

theorem tick_restart (t c : Nat) (a : AdapterState) (h : a.draining = false)
    (hr : restartDeadlineTicks ≤ t - a.session_start) :
    tick t c a =
      { session_start := a.session_start, draining := true,
        queue := a.queue ++ [c], sent := a.sent,
        completed := a.completed ++ [(a.session_start, t)] } := by
  simp [tick, h, hr]

theorem tick_consume_nil (t c : Nat) (a : AdapterState) (h : a.draining = false)
    (hr : ¬ restartDeadlineTicks ≤ t - a.session_start) (hq : a.queue = []) :
    tick t c a =
      { session_start := a.session_start, draining := false, queue := [],
        sent := c :: a.sent, completed := a.completed } := by
  simp [tick, h, hr, hq]

theorem tick_consume_cons (t c d : Nat) (rest : List Nat) (a : AdapterState)
    (h : a.draining = false)
    (hr : ¬ restartDeadlineTicks ≤ t - a.session_start)
    (hq : a.queue = d :: rest) :
    tick t c a =
      { session_start := a.session_start, draining := false,
        queue := rest ++ [c], sent := d :: a.sent,
        completed := a.completed } := by
  simp [tick, h, hr, hq]

theorem run_succ (n : Nat) :
    run (n + 1) = tick (n + 1) (n + 1) (run n) := by
  unfold run
  rw [List.range'_1_concat, Nat.add_comm 1 n, List.foldl_append]
  rfl

/-- The adapter invariant: a non-draining session is strictly younger than the
restart deadline, a draining one at most at the deadline, every completed
session span is bounded by the deadline, and the chunks forwarded to the
engine followed by the queued ones are exactly the chunks that arrived — no
chunk is dropped across session swaps. -/
theorem run_invariant (n : Nat) :
    ((run n).draining = false →
        n - (run n).session_start < restartDeadlineTicks) ∧
    ((run n).draining = true →
        n - (run n).session_start ≤ restartDeadlineTicks) ∧
    (∀ p ∈ (run n).completed, p.2 - p.1 ≤ restartDeadlineTicks) ∧
    (run n).sent.reverse ++ (run n).queue = List.range' 1 n := by
  induction n with
  | zero =>
      exact ⟨fun _ => by decide, fun _ => by decide,
        fun p hp => absurd hp (List.not_mem_nil p), rfl⟩
  | succ n ih =>
      obtain ⟨ih_live, ih_drain, ih_comp, ih_cons⟩ := ih
      rw [run_succ]
      cases hd : (run n).draining with
      | true =>
          rw [tick_drain _ _ _ hd]
          refine ⟨fun _ => ?_, fun hcon => by simp at hcon,
            fun p hp => ih_comp p hp, ?_⟩
          · show n + 1 - (n + 1) < 280
            omega
          · show (run n).sent.reverse ++ ((run n).queue ++ [n + 1]) =
              List.range' 1 (n + 1)
            rw [List.range'_1_concat, ← List.append_assoc, ih_cons,
              Nat.add_comm 1 n]
      | false =>
          by_cases hr : restartDeadlineTicks ≤ (n + 1) - (run n).session_start
          · rw [tick_restart _ _ _ hd hr]
            have h1 : n - (run n).session_start < 280 := ih_live hd
            refine ⟨fun hcon => by simp at hcon, fun _ => ?_,
              fun p hp => ?_, ?_⟩
            · show n + 1 - (run n).session_start ≤ 280
              omega
            · rcases List.mem_append.mp hp with h2 | h2
              · exact ih_comp p h2
              · rw [List.mem_singleton.mp h2]
                show n + 1 - (run n).session_start ≤ 280
                omega
            · show (run n).sent.reverse ++ ((run n).queue ++ [n + 1]) =
                List.range' 1 (n + 1)
              rw [List.range'_1_concat, ← List.append_assoc, ih_cons,
                Nat.add_comm 1 n]
          · have h1 : ¬ (280 ≤ n + 1 - (run n).session_start) := hr
            cases hq : (run n).queue with
            | nil =>
                rw [tick_consume_nil _ _ _ hd hr hq]
                refine ⟨fun _ => ?_, fun hcon => by simp at hcon,
                  fun p hp => ih_comp p hp, ?_⟩
                · show n + 1 - (run n).session_start < 280
                  omega
                · have h2 := ih_cons
                  rw [hq, List.append_nil] at h2
                  show ((n + 1) :: (run n).sent).reverse ++ ([] : List Nat) =
                    List.range' 1 (n + 1)
                  rw [List.append_nil, List.reverse_cons, h2,
                    List.range'_1_concat, Nat.add_comm 1 n]
            | cons d rest =>
                rw [tick_consume_cons _ _ _ _ _ hd hr hq]
                refine ⟨fun _ => ?_, fun hcon => by simp at hcon,
                  fun p hp => ih_comp p hp, ?_⟩
                · show n + 1 - (run n).session_start < 280
                  omega
                · have h2 := ih_cons
                  rw [hq] at h2
                  show (d :: (run n).sent).reverse ++ (rest ++ [n + 1]) =
                    List.range' 1 (n + 1)
                  rw [List.reverse_cons, List.range'_1_concat,
                    Nat.add_comm 1 n, ← h2]
                  simp

end RestartAdapter

/-- C3: under continuous audio, no streaming-recognizer session outlives the
restart deadline — every completed session span is at most
`restartDeadlineTicks`, so with the one-tick drain no session is live longer
than `restartDeadlineTicks + drainDeadlineTicks` — the current session is
never older than the deadline either, and the swap drops no audio: the chunks
forwarded to the engine followed by the still-queued ones are exactly the
chunks that arrived. -/
theorem C3_session_bound_no_drop (n : Nat) :
    (∀ p ∈ (RestartAdapter.run n).completed,
        p.2 - p.1 + RestartAdapter.drainDeadlineTicks ≤
          RestartAdapter.restartDeadlineTicks +
            RestartAdapter.drainDeadlineTicks) ∧
    n - (RestartAdapter.run n).session_start ≤
      RestartAdapter.restartDeadlineTicks ∧
    (RestartAdapter.run n).sent.reverse ++ (RestartAdapter.run n).queue =
      List.range' 1 n := by
  obtain ⟨h1, h2, h3, h4⟩ := RestartAdapter.run_invariant n
  refine ⟨fun p hp => Nat.add_le_add_right (h3 p hp) _, ?_, h4⟩
  cases hd : (RestartAdapter.run n).draining
  · exact Nat.le_of_lt (h1 hd)
  · exact h2 hd

set_option maxRecDepth 20000 in
/-- Witness for C3: after 280 ticks the first session has been swapped out,
its recorded span `(0, 280)` is within the deadline-plus-drain bound. -/
theorem C3_witness :
    (0, 280) ∈ (RestartAdapter.run 280).completed ∧
    (280 : Nat) - 0 + RestartAdapter.drainDeadlineTicks ≤
      RestartAdapter.restartDeadlineTicks +
        RestartAdapter.drainDeadlineTicks := by
  have h : (0, 280) ∈ (RestartAdapter.run 280).completed := by decide
  exact ⟨h, (C3_session_bound_no_drop 280).1 (0, 280) h⟩

/-! ## C4 — the keepalive sweep removes even a promptly-ponging listener -/

/-- C4: a listener added at `t = 995` is pinged at the `t = 1000` sweep
(`last_ping` becomes 1000), replies with a pong text frame at `t = 1002` —
which the listener endpoint's receive loop discards without calling
`handle_pong` — and the next sweep at `t = 1030` removes it, because
`now − last_pong = 35 > PONG_TIMEOUT`.  Even if the pong had been recorded
(`handle_pong` at `t = 1002`), the sweep still removes the listener, since it
compares `now` against the last pong (28 s ago) rather than against the ping
it answered.  The claim that a listener ponging within 5 s of every ping is
never removed fails on this trace. -/
theorem C4_keepalive_removes_ponging_listener :
    (ConnMgr.perform_keepalive_check 1000
        (ConnMgr.add_listener 995 "s" 7 ConnMgr.emptyCM)).connection_metadata =
      [(7, { last_ping := 1000, last_pong := 995, stream_id := "s",
             connected_at := 995 })] ∧
    ConnMgr.websocket_listener_on_text
        (ConnMgr.perform_keepalive_check 1000
          (ConnMgr.add_listener 995 "s" 7 ConnMgr.emptyCM)) "pong" =
      ConnMgr.perform_keepalive_check 1000
        (ConnMgr.add_listener 995 "s" 7 ConnMgr.emptyCM) ∧
    ConnMgr.get_listeners "s"
      (ConnMgr.perform_keepalive_check 1030
        (ConnMgr.websocket_listener_on_text
          (ConnMgr.perform_keepalive_check 1000
            (ConnMgr.add_listener 995 "s" 7 ConnMgr.emptyCM)) "pong")) = [] ∧
    ConnMgr.get_listeners "s"
      (ConnMgr.perform_keepalive_check 1030
        (ConnMgr.handle_pong 1002 7
          (ConnMgr.perform_keepalive_check 1000
            (ConnMgr.add_listener 995 "s" 7 ConnMgr.emptyCM)))) = [] := by
  refine ⟨by decide, rfl, by decide, by decide⟩

end Broker
